import Mathlib

/-!
Morpheus resource handlers: Create, Read, Update, Delete.

A shallow embedding of the four resource handlers of the provider
(`resource_api_option_list.go`, `resource_checkbox_option_type.go`,
`resource_typeahead_option_type.go`, `resource_powershell_script_task.go`).

* The host's `*schema.ResourceData` is a record with one typed field per schema
  entry plus the resource id; `d.Set(k, v)` is a record update, `d.SetId` an
  update of `id`.  A run of `d.Set` calls on distinct keys is written as one
  record update, in the order of the calls.
* The remote client (`meta.(*morpheus.Client)`) is a transition function on an
  arbitrary remote state: every method call returns the Go pair `(resp, err)`
  and the next remote state.  Every handler also reports the list of calls it
  issued, in order.
* A handler either returns diagnostics or stops in a Go run-time panic (nil
  dereference, failed type assertion).
-/

namespace Morpheus

/-! ## Values of Go type `interface{}` and request bodies -/

/-- A Go value of type `interface{}` as it occurs in request bodies and in
loosely typed response fields: `nil`, a string, a bool, an integer, a slice of
strings or a `map[string]interface{}` (its entries in the order of the map
literal, respectively of the assignments). -/
inductive Value where
  | null : Value
  | str (s : String) : Value
  | bool (b : Bool) : Value
  | int (n : Int) : Value
  | strs (l : List String) : Value
  | obj (kvs : List (String × Value)) : Value

/-- Go `v == nil` for an `interface{}` value. -/
def Value.isNil : Value → Bool
  | .null => true
  | _ => false

/-- Go `v == s` for an `interface{}` value `v` and a string constant `s`: true
only when the dynamic type is `string` and the contents are equal. -/
def Value.eqStr : Value → String → Bool
  | .str t, s => t == s
  | _, _ => false

/-- Look a key up in a `map[string]interface{}`: the entry written last wins. -/
def lookupKey (k : String) : List (String × Value) → Option Value
  | [] => none
  | (k', v) :: rest =>
    match lookupKey k rest with
    | some w => some w
    | none => if k' == k then some v else none

/-- Go `m[k]` on a value that is a map (`none` when the key is absent or the value
is no map). -/
def Value.get (v : Value) (k : String) : Option Value :=
  match v with
  | .obj kvs => lookupKey k kvs
  | _ => none

/-! ## Diagnostics -/

/-- Severity of a diagnostic (`diag.Error`, `diag.Warning`). -/
inductive Severity where
  | Error
  | Warning
deriving DecidableEq, Repr

/-- One `diag.Diagnostic`. -/
structure Diagnostic where
  Severity : Severity
  Summary : String
deriving DecidableEq, Repr

/-- The Go type `diag.Diagnostics`; `nil` and the declared-but-empty `var diags`
are both the empty list. -/
abbrev Diagnostics := List Diagnostic

/-- Go `diag.FromErr(err)` for a non-nil error with message `err`. -/
def diag.FromErr (err : String) : Diagnostics :=
  [{ Severity := .Error, Summary := err }]

/-- Go `diag.Errorf(msg)` with a constant format string. -/
def diag.Errorf (msg : String) : Diagnostics :=
  [{ Severity := .Error, Summary := msg }]

/-- Whether a list of diagnostics carries an error (`diags.HasError()`). -/
def Diagnostics.HasError (ds : Diagnostics) : Bool :=
  ds.any (fun x => x.Severity == .Error)

/-! ## Helpers of the provider that convert ids -/

/-- Modelled from the spec: the provider helper `int64ToString` (not among the
four handler files) turns the remote numeric ID into the local `id`, "the remote
entity's numeric ID (stringified)": its decimal representation. -/
def int64ToString (n : Int) : String := toString n

/-- Modelled from the spec: the provider helper `intToString`, the same
stringification for a Go `int`. -/
def intToString (n : Int) : String := toString n

/-- The number written by a list of decimal digits, read from the left onto the
value `acc` read so far; `none` when a character is no digit. -/
def digitsToNat : List Char → Nat → Option Nat
  | [], acc => some acc
  | c :: cs, acc =>
    if c.isDigit then digitsToNat cs (10 * acc + (c.toNat - 48)) else none

/-- Modelled from the spec: the provider helper `toInt64` (not among the four
handler files) reads the local `id`, "the remote entity's numeric ID
(stringified)", back as that number: an optional sign and decimal digits; a
string that is no such number gives 0. -/
def toInt64 (s : String) : Int :=
  match s.data with
  | [] => 0
  | '-' :: cs => if cs.isEmpty then 0 else - ((digitsToNat cs 0).getD 0 : Nat)
  | '+' :: cs => if cs.isEmpty then 0 else ((digitsToNat cs 0).getD 0 : Nat)
  | cs => ((digitsToNat cs 0).getD 0 : Nat)

/-! ## Remote entities (types of the client SDK, with the fields the handlers use) -/

/-- The SDK type `morpheus.OptionList`. -/
structure OptionList where
  ID : Int
  Name : String
  Description : String
  Visibility : String
  APIType : String
  TranslationScript : String
  RequestScript : String
deriving DecidableEq, Repr

/-- The anonymous struct `OptionType.Config`. -/
structure OptionTypeConfig where
  MultiSelect : Value

/-- The anonymous struct `OptionType.OptionList`. -/
structure OptionTypeOptionList where
  ID : Int
deriving DecidableEq, Repr

/-- The SDK type `morpheus.OptionType`. -/
structure OptionType where
  ID : Int
  Name : String
  Description : String
  Labels : List String
  FieldName : String
  ExportMeta : Bool
  DependsOnCode : String
  VisibleOnCode : String
  RequireOnCode : String
  ShowOnEdit : Bool
  Editable : Bool
  DisplayValueOnDetails : Bool
  FieldLabel : String
  PlaceHolder : String
  DefaultValue : String
  HelpBlock : String
  Required : Bool
  Config : OptionTypeConfig
  OptionList : OptionTypeOptionList

/-- The SDK type `morpheus.Task`, of which the handlers read only `ID`. -/
structure Task where
  ID : Int
deriving DecidableEq, Repr

/-- The struct `PowerShellScript.Task.Taskoptions`. -/
structure PowerShellScriptTaskoptions where
  Port : String
  Host : String
  Password : String
  PasswordHash : String
  Username : String
  WinrmElevated : String
  LocalScriptGitRef : String
deriving DecidableEq, Repr

/-- The struct `PowerShellScript.Task.File.Repository`. -/
structure PowerShellScriptRepository where
  ID : Int
  Name : String
deriving DecidableEq, Repr

/-- The struct `PowerShellScript.Task.File`; `Content` has Go type `interface{}`. -/
structure PowerShellScriptFile where
  ID : Int
  Sourcetype : String
  Contentref : String
  Contentpath : String
  Repository : PowerShellScriptRepository
  Content : Value

/-- The struct `PowerShellScript.Task` (the two time stamps, which no handler
reads, are left out). -/
structure PowerShellScriptTask where
  ID : Int
  Accountid : Int
  Name : String
  Code : String
  Taskoptions : PowerShellScriptTaskoptions
  File : PowerShellScriptFile
  Resulttype : String
  Executetarget : String
  Retryable : Bool
  Retrycount : Int
  Retrydelayseconds : Int
  Allowcustomconfig : Bool

/-- The type `PowerShellScript` declared in `resource_powershell_script_task.go`. -/
structure PowerShellScript where
  Task : PowerShellScriptTask

/-- The zero value of `PowerShellScript` (`var powerShellScriptTask PowerShellScript`). -/
def PowerShellScript.zero : PowerShellScript :=
  { Task :=
    { ID := 0, Accountid := 0, Name := "", Code := "",
      Taskoptions :=
        { Port := "", Host := "", Password := "", PasswordHash := "", Username := "",
          WinrmElevated := "", LocalScriptGitRef := "" },
      File :=
        { ID := 0, Sourcetype := "", Contentref := "", Contentpath := "",
          Repository := { ID := 0, Name := "" }, Content := .null },
      Resulttype := "", Executetarget := "", Retryable := false, Retrycount := 0,
      Retrydelayseconds := 0, Allowcustomconfig := false } }

/-! ## The remote client -/

/-- The dynamic contents of `resp.Result`.  Each constructor is a non-nil pointer
to the SDK result struct of that name, whose one field (`OptionList`,
`OptionType`, `Task`) is itself a pointer and may be nil; `other` is every value
on which the type assertion of the handler fails or whose dereference panics. -/
inductive Result where
  | CreateOptionListResult (OptionList : Option OptionList)
  | GetOptionListResult (OptionList : Option OptionList)
  | UpdateOptionListResult (OptionList : Option OptionList)
  | CreateOptionTypeResult (OptionType : Option OptionType)
  | GetOptionTypeResult (OptionType : Option OptionType)
  | UpdateOptionTypeResult (OptionType : Option OptionType)
  | CreateTaskResult (Task : Option Task)
  | UpdateTaskResult (Task : Option Task)
  | other

/-- The SDK type `morpheus.Response`.  `Body` stands for the raw bytes through
the one use the handlers make of them: it is the struct that
`json.Unmarshal(resp.Body, &v)` leaves in a zero-valued `v` (unmarshalling errors
are not looked at by the handler), so a body without a `task` object, or one that
is no JSON at all, is `PowerShellScript.zero`. -/
structure Response where
  StatusCode : Int
  Body : PowerShellScript
  Result : Result

/-- The Go pair `(resp, err)` a client method returns: a nilable response
pointer and a nilable error (its message). -/
structure Reply where
  resp : Option Response
  err : Option String

/-- The client methods the handlers call, with their arguments (the empty
`&morpheus.Request{}` of the get and delete calls is not recorded). -/
inductive Call where
  | CreateOptionList (body : Value)
  | FindOptionListByName (name : String)
  | GetOptionList (id : Int)
  | UpdateOptionList (id : Int) (body : Value)
  | DeleteOptionList (id : Int)
  | CreateOptionType (body : Value)
  | FindOptionTypeByName (name : String)
  | GetOptionType (id : Int)
  | UpdateOptionType (id : Int) (body : Value)
  | DeleteOptionType (id : Int)
  | CreateTask (body : Value)
  | FindTaskByName (name : String)
  | GetTask (id : Int)
  | UpdateTask (id : Int) (body : Value)
  | DeleteTask (id : Int)

/-- The remote side seen through `*morpheus.Client`: given the remote state and
a call, the reply and the next remote state. -/
abbrev Client (σ : Type) := σ → Call → Reply × σ

/-- How a handler ends: it returns diagnostics, or the Go code panics. -/
inductive Outcome where
  | returned (diags : Diagnostics)
  | panicked
deriving DecidableEq, Repr

/-- One run of a handler: how it ended, the resource data and the remote state
it leaves, and the client calls it made, in order. -/
structure Run (δ σ : Type) where
  outcome : Outcome
  d : δ
  remote : σ
  calls : List Call

/-- Go `resp != nil && resp.StatusCode == 404`. -/
def is404 (resp : Option Response) : Bool :=
  match resp with
  | some r => r.StatusCode == 404
  | none => false

/-! ## `resource_api_option_list.go` -/

/-- The resource data of `morpheus_api_option_list`. -/
structure ApiOptionListData where
  id : String
  name : String
  description : String
  visibility : String
  option_list : String
  translation_script : String
  request_script : String
deriving DecidableEq, Repr

/-- The request body built by `resourceApiOptionListCreate`. -/
def resourceApiOptionListCreate.body (d : ApiOptionListData) : Value :=
  .obj [("optionTypeList", .obj [
    ("name", .str d.name),
    ("description", .str d.description),
    ("type", .str "api"),
    ("apiType", .str d.option_list),
    ("visibility", .str d.visibility),
    ("translationScript", .str d.translation_script),
    ("requestScript", .str d.request_script)])]

/-- The request body built by `resourceApiOptionListUpdate`. -/
def resourceApiOptionListUpdate.body (d : ApiOptionListData) : Value :=
  .obj [("optionTypeList", .obj [
    ("name", .str d.name),
    ("description", .str d.description),
    ("type", .str "api"),
    ("apiType", .str d.option_list),
    ("visibility", .str d.visibility),
    ("translationScript", .str d.translation_script),
    ("requestScript", .str d.request_script)])]

/-- The choice of the remote lookup at the head of `resourceApiOptionListRead`: by name
when there is no id yet, by id when there is one, none when both are empty. -/
def resourceApiOptionListRead.lookup (id name : String) : Option Call :=
  -- lookup by name if we do not have an id yet
  if id == "" && name != "" then some (.FindOptionListByName name)
  else if id != "" then some (.GetOptionList (toInt64 id))
  else none

/-- The handler `resourceApiOptionListRead`. -/
def resourceApiOptionListRead {σ : Type} (client : Client σ) (remote : σ)
    (d : ApiOptionListData) : Run ApiOptionListData σ :=
  let id := d.id
  let name := d.name
  match resourceApiOptionListRead.lookup id name with
  | none =>
    ⟨.returned (diag.Errorf "Option list cannot be read without name or id"), d, remote, []⟩
  | some call =>
    let (reply, remote1) := client remote call
    match reply.err with
    | some err =>
      if is404 reply.resp then ⟨.returned (diag.FromErr err), d, remote1, [call]⟩
      else ⟨.returned (diag.FromErr err), d, remote1, [call]⟩
    | none =>
      match reply.resp with
      | none => ⟨.panicked, d, remote1, [call]⟩
      | some resp =>
        -- store resource data
        match resp.Result with
        | .GetOptionListResult (some optionList) =>
          let d1 :=
            { d with
              id := int64ToString optionList.ID
              name := optionList.Name
              description := optionList.Description
              visibility := optionList.Visibility
              option_list := optionList.APIType
              translation_script := optionList.TranslationScript
              request_script := optionList.RequestScript }
          ⟨.returned [], d1, remote1, [call]⟩
        | .GetOptionListResult none =>
          ⟨.returned (diag.Errorf "read operation: option list not found in response data"),
            d, remote1, [call]⟩
        | _ => ⟨.panicked, d, remote1, [call]⟩

/-- The handler `resourceApiOptionListCreate`. -/
def resourceApiOptionListCreate {σ : Type} (client : Client σ) (remote : σ)
    (d : ApiOptionListData) : Run ApiOptionListData σ :=
  let call := Call.CreateOptionList (resourceApiOptionListCreate.body d)
  let (reply, remote1) := client remote call
  match reply.err with
  | some err => ⟨.returned (diag.FromErr err), d, remote1, [call]⟩
  | none =>
    match reply.resp with
    | none => ⟨.panicked, d, remote1, [call]⟩
    | some resp =>
      match resp.Result with
      | .CreateOptionListResult (some optionList) =>
        -- Successfully created resource, now set id
        let d1 := { d with id := int64ToString optionList.ID }
        let r := resourceApiOptionListRead client remote1 d1
        match r.outcome with
        | .panicked => ⟨.panicked, r.d, r.remote, call :: r.calls⟩
        | .returned _ => ⟨.returned [], r.d, r.remote, call :: r.calls⟩
      | _ => ⟨.panicked, d, remote1, [call]⟩

/-- The handler `resourceApiOptionListUpdate`. -/
def resourceApiOptionListUpdate {σ : Type} (client : Client σ) (remote : σ)
    (d : ApiOptionListData) : Run ApiOptionListData σ :=
  let id := d.id
  let call := Call.UpdateOptionList (toInt64 id) (resourceApiOptionListUpdate.body d)
  let (reply, remote1) := client remote call
  match reply.err with
  | some err => ⟨.returned (diag.FromErr err), d, remote1, [call]⟩
  | none =>
    match reply.resp with
    | none => ⟨.panicked, d, remote1, [call]⟩
    | some resp =>
      match resp.Result with
      | .UpdateOptionListResult (some optionList) =>
        -- Successfully updated resource, now set id
        let d1 := { d with id := int64ToString optionList.ID }
        let r := resourceApiOptionListRead client remote1 d1
        ⟨r.outcome, r.d, r.remote, call :: r.calls⟩
      | _ => ⟨.panicked, d, remote1, [call]⟩

/-- The handler `resourceApiOptionListDelete`. -/
def resourceApiOptionListDelete {σ : Type} (client : Client σ) (remote : σ)
    (d : ApiOptionListData) : Run ApiOptionListData σ :=
  let id := d.id
  let call := Call.DeleteOptionList (toInt64 id)
  let (reply, remote1) := client remote call
  match reply.err with
  | some err =>
    if is404 reply.resp then ⟨.returned (diag.FromErr err), d, remote1, [call]⟩
    else ⟨.returned (diag.FromErr err), d, remote1, [call]⟩
  | none => ⟨.returned [], { d with id := "" }, remote1, [call]⟩

/-! ## Sets of strings held by the host -/

/-- The bytes of the UTF-8 encoding of one character. -/
def utf8Char (c : Char) : List Nat :=
  let n := c.toNat
  if n < 128 then [n]
  else if n < 2048 then [192 + n / 64, 128 + n % 64]
  else if n < 65536 then [224 + n / 4096, 128 + n / 64 % 64, 128 + n % 64]
  else [240 + n / 262144, 128 + n / 4096 % 64, 128 + n / 64 % 64, 128 + n % 64]

/-- Go `[]byte(s)`: the bytes of a string. -/
def bytesOf (s : String) : List Nat := s.data.flatMap utf8Char

/-- One bit of the CRC-32 computation: shift the register right and, when the
bit shifted out is a one, add the reflected IEEE polynomial. -/
def crc32.shift (c : Nat) : Nat :=
  if c % 2 = 1 then (c >>> 1) ^^^ 3988292384 else c >>> 1

/-- One byte of the CRC-32 computation. -/
def crc32.update (c b : Nat) : Nat :=
  crc32.shift (crc32.shift (crc32.shift (crc32.shift
    (crc32.shift (crc32.shift (crc32.shift (crc32.shift (c ^^^ b))))))))

/-- Go `crc32.ChecksumIEEE` of a list of bytes. -/
def crc32.ChecksumIEEE (bytes : List Nat) : Nat :=
  (bytes.foldl crc32.update 4294967295) ^^^ 4294967295

/-- The key under which the host's `schema.Set` keeps a string element: the
decimal hash code of the element, which for a set of strings is the CRC-32 of
the string followed by `;`. -/
def setKey (s : String) : String :=
  Nat.repr (crc32.ChecksumIEEE (bytesOf s ++ [59]))

/-- The order in which Go sorts strings, character by character. -/
def lexLt : List Char → List Char → Bool
  | [], [] => false
  | [], _ :: _ => true
  | _ :: _, [] => false
  | a :: as, b :: bs =>
    if a.toNat < b.toNat then true
    else if b.toNat < a.toNat then false
    else lexLt as bs

/-- Put an element under its key into a set kept in the order of its keys;
an element whose key is taken already is dropped. -/
def setInsert (k v : String) : List (String × String) → List (String × String)
  | [] => [(k, v)]
  | (k1, v1) :: rest =>
    if k == k1 then (k1, v1) :: rest
    else if lexLt k.data k1.data then (k, v) :: (k1, v1) :: rest
    else (k1, v1) :: setInsert k v rest

/-- The `*schema.Set` the host builds when a handler stores a Go slice in a
`TypeSet` field of strings: the elements are added one by one under their hash
keys, and `Set.List()` gives them back in the order of the sorted keys.  The
list is the one `Set.List()` gives back. -/
def schemaSetOf (l : List String) : List String :=
  (l.foldl (fun m s => setInsert (setKey s) s m) []).map Prod.snd

/-- The loop that fills `labelsPayload`: `make([]string, 0)`, then, when
`d.GetOk("labels")` reports a non-empty set, one `append` per element. -/
def labelsPayload (labels : List String) : List String :=
  if labels.isEmpty then [] else labels.foldl (fun acc s => acc ++ [s]) []

/-! ## `resource_checkbox_option_type.go` -/

/-- The resource data of `morpheus_checkbox_option_type`. -/
structure CheckboxOptionTypeData where
  id : String
  name : String
  description : String
  labels : List String
  field_name : String
  export_meta : Bool
  dependent_field : String
  visibility_field : String
  require_field : String
  show_on_edit : Bool
  editable : Bool
  display_value_on_details : Bool
  field_label : String
  default_checked : Bool
deriving DecidableEq, Repr

/-- The request body built by `resourceCheckboxOptionTypeCreate`. -/
def resourceCheckboxOptionTypeCreate.body (d : CheckboxOptionTypeData) : Value :=
  let defaultCheck := if d.default_checked then "on" else "off"
  .obj [("optionType", .obj [
    ("name", .str d.name),
    ("description", .str d.description),
    ("labels", .strs (labelsPayload d.labels)),
    ("fieldName", .str d.field_name),
    ("exportMeta", .bool d.export_meta),
    ("dependsOnCode", .str d.dependent_field),
    ("visibleOnCode", .str d.visibility_field),
    ("requireOnCode", .str d.require_field),
    ("showOnEdit", .bool d.show_on_edit),
    ("editable", .bool d.editable),
    ("displayValueOnDetails", .bool d.display_value_on_details),
    ("type", .str "checkbox"),
    ("fieldLabel", .str d.field_label),
    ("defaultValue", .str defaultCheck)])]

/-- The request body built by `resourceCheckboxOptionTypeUpdate`. -/
def resourceCheckboxOptionTypeUpdate.body (d : CheckboxOptionTypeData) : Value :=
  let defaultCheck := if d.default_checked then "on" else "off"
  .obj [("optionType", .obj [
    ("name", .str d.name),
    ("description", .str d.description),
    ("labels", .strs (labelsPayload d.labels)),
    ("fieldName", .str d.field_name),
    ("exportMeta", .bool d.export_meta),
    ("dependsOnCode", .str d.dependent_field),
    ("visibleOnCode", .str d.visibility_field),
    ("requireOnCode", .str d.require_field),
    ("showOnEdit", .bool d.show_on_edit),
    ("editable", .bool d.editable),
    ("displayValueOnDetails", .bool d.display_value_on_details),
    ("type", .str "checkbox"),
    ("fieldLabel", .str d.field_label),
    ("defaultValue", .str defaultCheck)])]

/-- The choice of the remote lookup at the head of `resourceCheckboxOptionTypeRead`: by name
when there is no id yet, by id when there is one, none when both are empty. -/
def resourceCheckboxOptionTypeRead.lookup (id name : String) : Option Call :=
  -- lookup by name if we do not have an id yet
  if id == "" && name != "" then some (.FindOptionTypeByName name)
  else if id != "" then some (.GetOptionType (toInt64 id))
  else none

/-- The handler `resourceCheckboxOptionTypeRead`. -/
def resourceCheckboxOptionTypeRead {σ : Type} (client : Client σ) (remote : σ)
    (d : CheckboxOptionTypeData) : Run CheckboxOptionTypeData σ :=
  let id := d.id
  let name := d.name
  match resourceCheckboxOptionTypeRead.lookup id name with
  | none =>
    ⟨.returned (diag.Errorf "OptionType cannot be read without name or id"), d, remote, []⟩
  | some call =>
    let (reply, remote1) := client remote call
    match reply.err with
    | some err =>
      -- 404 is ok?
      if is404 reply.resp then ⟨.returned (diag.FromErr err), d, remote1, [call]⟩
      else ⟨.returned (diag.FromErr err), d, remote1, [call]⟩
    | none =>
      match reply.resp with
      | none => ⟨.panicked, d, remote1, [call]⟩
      | some resp =>
        -- store resource data
        match resp.Result with
        | .GetOptionTypeResult (some optionType) =>
          let d1 :=
            { d with
              id := int64ToString optionType.ID
              name := optionType.Name
              description := optionType.Description
              labels := schemaSetOf optionType.Labels
              field_name := optionType.FieldName
              export_meta := optionType.ExportMeta
              dependent_field := optionType.DependsOnCode
              visibility_field := optionType.VisibleOnCode
              require_field := optionType.RequireOnCode
              show_on_edit := optionType.ShowOnEdit
              editable := optionType.Editable
              display_value_on_details := optionType.DisplayValueOnDetails
              field_label := optionType.FieldLabel
              default_checked := if optionType.DefaultValue == "on" then true else true }
          ⟨.returned [], d1, remote1, [call]⟩
        | .GetOptionTypeResult none =>
          ⟨.returned (diag.Errorf "read operation: option type not found in response data"),
            d, remote1, [call]⟩
        | _ => ⟨.panicked, d, remote1, [call]⟩

/-- The handler `resourceCheckboxOptionTypeCreate`. -/
def resourceCheckboxOptionTypeCreate {σ : Type} (client : Client σ) (remote : σ)
    (d : CheckboxOptionTypeData) : Run CheckboxOptionTypeData σ :=
  let call := Call.CreateOptionType (resourceCheckboxOptionTypeCreate.body d)
  let (reply, remote1) := client remote call
  match reply.err with
  | some err => ⟨.returned (diag.FromErr err), d, remote1, [call]⟩
  | none =>
    match reply.resp with
    | none => ⟨.panicked, d, remote1, [call]⟩
    | some resp =>
      match resp.Result with
      | .CreateOptionTypeResult (some environment) =>
        -- Successfully created resource, now set id
        let d1 := { d with id := int64ToString environment.ID }
        let r := resourceCheckboxOptionTypeRead client remote1 d1
        match r.outcome with
        | .panicked => ⟨.panicked, r.d, r.remote, call :: r.calls⟩
        | .returned _ => ⟨.returned [], r.d, r.remote, call :: r.calls⟩
      | _ => ⟨.panicked, d, remote1, [call]⟩

/-- The handler `resourceCheckboxOptionTypeUpdate`. -/
def resourceCheckboxOptionTypeUpdate {σ : Type} (client : Client σ) (remote : σ)
    (d : CheckboxOptionTypeData) : Run CheckboxOptionTypeData σ :=
  let id := d.id
  let call := Call.UpdateOptionType (toInt64 id) (resourceCheckboxOptionTypeUpdate.body d)
  let (reply, remote1) := client remote call
  match reply.err with
  | some err => ⟨.returned (diag.FromErr err), d, remote1, [call]⟩
  | none =>
    match reply.resp with
    | none => ⟨.panicked, d, remote1, [call]⟩
    | some resp =>
      match resp.Result with
      | .UpdateOptionTypeResult (some optionType) =>
        -- Successfully updated resource, now set id
        let d1 := { d with id := int64ToString optionType.ID }
        let r := resourceCheckboxOptionTypeRead client remote1 d1
        ⟨r.outcome, r.d, r.remote, call :: r.calls⟩
      | _ => ⟨.panicked, d, remote1, [call]⟩

/-- The handler `resourceCheckboxOptionTypeDelete`. -/
def resourceCheckboxOptionTypeDelete {σ : Type} (client : Client σ) (remote : σ)
    (d : CheckboxOptionTypeData) : Run CheckboxOptionTypeData σ :=
  let id := d.id
  let call := Call.DeleteOptionType (toInt64 id)
  let (reply, remote1) := client remote call
  match reply.err with
  | some err =>
    if is404 reply.resp then ⟨.returned [], d, remote1, [call]⟩
    else ⟨.returned (diag.FromErr err), d, remote1, [call]⟩
  | none => ⟨.returned [], { d with id := "" }, remote1, [call]⟩

/-! ## `resource_typeahead_option_type.go` -/

/-- The resource data of `morpheus_typeahead_option_type`. -/
structure TypeAheadOptionTypeData where
  id : String
  name : String
  description : String
  labels : List String
  field_name : String
  export_meta : Bool
  dependent_field : String
  visibility_field : String
  require_field : String
  show_on_edit : Bool
  editable : Bool
  display_value_on_details : Bool
  field_label : String
  placeholder : String
  default_value : String
  help_block : String
  option_list_id : Int
  allow_multiple_selections : Bool
  required : Bool
deriving DecidableEq, Repr

/-- The request body built by `resourceTypeAheadOptionTypeCreate`. -/
def resourceTypeAheadOptionTypeCreate.body (d : TypeAheadOptionTypeData) : Value :=
  let allowMultipleSelections := if d.allow_multiple_selections then "on" else "off"
  .obj [("optionType", .obj [
    ("name", .str d.name),
    ("description", .str d.description),
    ("labels", .strs (labelsPayload d.labels)),
    ("fieldName", .str d.field_name),
    ("type", .str "typeahead"),
    ("defaultValue", .str d.default_value),
    ("dependsOnCode", .str d.dependent_field),
    ("displayValueOnDetails", .bool d.display_value_on_details),
    ("exportMeta", .bool d.export_meta),
    ("visibleOnCode", .str d.visibility_field),
    ("requireOnCode", .str d.require_field),
    ("showOnEdit", .bool d.show_on_edit),
    ("editable", .bool d.editable),
    ("fieldLabel", .str d.field_label),
    ("placeHolder", .str d.placeholder),
    ("helpBlock", .str d.help_block),
    ("required", .bool d.required),
    ("config", .obj [("multiSelect", .str allowMultipleSelections)]),
    ("optionList", .obj [("id", .int d.option_list_id)])])]

/-- The request body built by `resourceTypeAheadOptionTypeUpdate`. -/
def resourceTypeAheadOptionTypeUpdate.body (d : TypeAheadOptionTypeData) : Value :=
  let allowMultipleSelections := if d.allow_multiple_selections then "on" else "off"
  .obj [("optionType", .obj [
    ("name", .str d.name),
    ("description", .str d.description),
    ("labels", .strs (labelsPayload d.labels)),
    ("fieldName", .str d.field_name),
    ("type", .str "typeahead"),
    ("defaultValue", .str d.default_value),
    ("dependsOnCode", .str d.dependent_field),
    ("displayValueOnDetails", .bool d.display_value_on_details),
    ("exportMeta", .bool d.export_meta),
    ("visibleOnCode", .str d.visibility_field),
    ("requireOnCode", .str d.require_field),
    ("showOnEdit", .bool d.show_on_edit),
    ("editable", .bool d.editable),
    ("fieldLabel", .str d.field_label),
    ("placeHolder", .str d.placeholder),
    ("helpBlock", .str d.help_block),
    ("required", .bool d.required),
    ("config", .obj [("multiSelect", .str allowMultipleSelections)]),
    ("optionList", .obj [("id", .int d.option_list_id)])])]

/-- The choice of the remote lookup at the head of `resourceTypeAheadOptionTypeRead`: by name
when there is no id yet, by id when there is one, none when both are empty. -/
def resourceTypeAheadOptionTypeRead.lookup (id name : String) : Option Call :=
  -- lookup by name if we do not have an id yet
  if id == "" && name != "" then some (.FindOptionTypeByName name)
  else if id != "" then some (.GetOptionType (toInt64 id))
  else none

/-- The handler `resourceTypeAheadOptionTypeRead`. -/
def resourceTypeAheadOptionTypeRead {σ : Type} (client : Client σ) (remote : σ)
    (d : TypeAheadOptionTypeData) : Run TypeAheadOptionTypeData σ :=
  let id := d.id
  let name := d.name
  match resourceTypeAheadOptionTypeRead.lookup id name with
  | none =>
    ⟨.returned (diag.Errorf "OptionType cannot be read without name or id"), d, remote, []⟩
  | some call =>
    let (reply, remote1) := client remote call
    match reply.err with
    | some err =>
      -- 404 is ok?
      if is404 reply.resp then ⟨.returned (diag.FromErr err), d, remote1, [call]⟩
      else ⟨.returned (diag.FromErr err), d, remote1, [call]⟩
    | none =>
      match reply.resp with
      | none => ⟨.panicked, d, remote1, [call]⟩
      | some resp =>
        -- store resource data
        match resp.Result with
        | .GetOptionTypeResult (some optionType) =>
          let d1 :=
            { d with
              id := int64ToString optionType.ID
              name := optionType.Name
              description := optionType.Description
              labels := schemaSetOf optionType.Labels
              field_name := optionType.FieldName
              export_meta := optionType.ExportMeta
              dependent_field := optionType.DependsOnCode
              visibility_field := optionType.VisibleOnCode
              require_field := optionType.RequireOnCode
              show_on_edit := optionType.ShowOnEdit
              editable := optionType.Editable
              display_value_on_details := optionType.DisplayValueOnDetails
              field_label := optionType.FieldLabel
              placeholder := optionType.PlaceHolder
              default_value := optionType.DefaultValue
              help_block := optionType.HelpBlock
              option_list_id := optionType.OptionList.ID
              allow_multiple_selections :=
                if optionType.Config.MultiSelect.isNil || optionType.Config.MultiSelect.eqStr "off"
                then false else true
              required := optionType.Required }
          ⟨.returned [], d1, remote1, [call]⟩
        | .GetOptionTypeResult none =>
          ⟨.returned (diag.Errorf "read operation: option type not found in response data"),
            d, remote1, [call]⟩
        | _ => ⟨.panicked, d, remote1, [call]⟩

/-- The handler `resourceTypeAheadOptionTypeCreate`. -/
def resourceTypeAheadOptionTypeCreate {σ : Type} (client : Client σ) (remote : σ)
    (d : TypeAheadOptionTypeData) : Run TypeAheadOptionTypeData σ :=
  let call := Call.CreateOptionType (resourceTypeAheadOptionTypeCreate.body d)
  let (reply, remote1) := client remote call
  match reply.err with
  | some err => ⟨.returned (diag.FromErr err), d, remote1, [call]⟩
  | none =>
    match reply.resp with
    | none => ⟨.panicked, d, remote1, [call]⟩
    | some resp =>
      match resp.Result with
      | .CreateOptionTypeResult (some environment) =>
        -- Successfully created resource, now set id
        let d1 := { d with id := int64ToString environment.ID }
        let r := resourceTypeAheadOptionTypeRead client remote1 d1
        match r.outcome with
        | .panicked => ⟨.panicked, r.d, r.remote, call :: r.calls⟩
        | .returned _ => ⟨.returned [], r.d, r.remote, call :: r.calls⟩
      | _ => ⟨.panicked, d, remote1, [call]⟩

/-- The handler `resourceTypeAheadOptionTypeUpdate`. -/
def resourceTypeAheadOptionTypeUpdate {σ : Type} (client : Client σ) (remote : σ)
    (d : TypeAheadOptionTypeData) : Run TypeAheadOptionTypeData σ :=
  let id := d.id
  let call := Call.UpdateOptionType (toInt64 id) (resourceTypeAheadOptionTypeUpdate.body d)
  let (reply, remote1) := client remote call
  match reply.err with
  | some err => ⟨.returned (diag.FromErr err), d, remote1, [call]⟩
  | none =>
    match reply.resp with
    | none => ⟨.panicked, d, remote1, [call]⟩
    | some resp =>
      match resp.Result with
      | .UpdateOptionTypeResult (some account) =>
        -- Successfully updated resource, now set id
        let d1 := { d with id := int64ToString account.ID }
        let r := resourceTypeAheadOptionTypeRead client remote1 d1
        ⟨r.outcome, r.d, r.remote, call :: r.calls⟩
      | _ => ⟨.panicked, d, remote1, [call]⟩

/-- The handler `resourceTypeAheadOptionTypeDelete`. -/
def resourceTypeAheadOptionTypeDelete {σ : Type} (client : Client σ) (remote : σ)
    (d : TypeAheadOptionTypeData) : Run TypeAheadOptionTypeData σ :=
  let id := d.id
  let call := Call.DeleteOptionType (toInt64 id)
  let (reply, remote1) := client remote call
  match reply.err with
  | some err =>
    if is404 reply.resp then ⟨.returned (diag.FromErr err), d, remote1, [call]⟩
    else ⟨.returned (diag.FromErr err), d, remote1, [call]⟩
  | none => ⟨.returned [], { d with id := "" }, remote1, [call]⟩

/-! ## `resource_powershell_script_task.go` -/

/-- The resource data of `morpheus_powershell_script_task`.  `changed` lists the
keys for which the host answers `d.HasChange(key)` with true. -/
structure PowerShellScriptTaskData where
  id : String
  name : String
  code : String
  result_type : String
  elevated_shell : Bool
  source_type : String
  script_content : String
  script_path : String
  repository_id : Int
  version_ref : String
  execute_target : String
  remote_target_host : String
  remote_target_port : String
  remote_target_username : String
  remote_target_password : String
  retryable : Bool
  retry_count : Int
  retry_delay_seconds : Int
  allow_custom_config : Bool
  changed : List String
deriving DecidableEq, Repr

/-- Go `d.HasChange(key)`. -/
def PowerShellScriptTaskData.HasChange (d : PowerShellScriptTaskData) (key : String) : Bool :=
  decide (key ∈ d.changed)

/-- The host's `d.Set(key, v)` on a `TypeString` field for a `v` of Go type
`interface{}`: a string is stored, `nil` stores the empty string, and any other
value is refused with an error the handler does not look at, so the field keeps
its value. -/
def setStringField (old : String) (v : Value) : String :=
  match v with
  | .str s => s
  | .null => ""
  | _ => old

/-- Go `if cond { m[k] = v }` on a map under construction. -/
def putIf (cond : Bool) (k : String) (v : Value) (m : List (String × Value)) :
    List (String × Value) :=
  if cond then m ++ [(k, v)] else m

/-- The map `sourceOptions` built by both `resourcePowerShellScriptTaskCreate`
and `resourcePowerShellScriptTaskUpdate`. -/
def sourceOptions (d : PowerShellScriptTaskData) : List (String × Value) :=
  let m0 : List (String × Value) := []
  let m1 := putIf (d.script_content != "") "content" (.str d.script_content) m0
  let m2 := putIf (d.script_path != "") "contentPath" (.str d.script_path) m1
  m2 ++ [("contentRef", .str d.version_ref),
         ("repository", .obj [("id", .int d.repository_id)]),
         ("sourceType", .str d.source_type)]

/-- The map `taskOptions` built by `resourcePowerShellScriptTaskCreate`. -/
def resourcePowerShellScriptTaskCreate.taskOptions (d : PowerShellScriptTaskData) :
    List (String × Value) :=
  let m0 : List (String × Value) :=
    if d.elevated_shell then [("winrm.elevated", .str "on")] else [("winrm.elevated", .null)]
  let m1 := putIf (d.remote_target_host != "") "host" (.str d.remote_target_host) m0
  let m2 := putIf (d.remote_target_port != "") "port" (.str d.remote_target_port) m1
  let m3 := putIf (d.remote_target_username != "") "username" (.str d.remote_target_username) m2
  putIf (d.remote_target_password != "") "password" (.str d.remote_target_password) m3

/-- The map `taskOptions` built by `resourcePowerShellScriptTaskUpdate`. -/
def resourcePowerShellScriptTaskUpdate.taskOptions (d : PowerShellScriptTaskData) :
    List (String × Value) :=
  let m0 : List (String × Value) :=
    if d.elevated_shell then [("winrm.elevated", .str "on")] else [("winrm.elevated", .null)]
  let m1 := putIf (d.HasChange "remote_target_host") "host" (.str d.remote_target_host) m0
  let m2 := putIf (d.HasChange "remote_target_port") "port" (.str d.remote_target_port) m1
  let m3 :=
    putIf (d.HasChange "remote_target_username") "username" (.str d.remote_target_username) m2
  putIf (d.HasChange "remote_target_password") "password" (.str d.remote_target_password) m3

/-- The request body built by `resourcePowerShellScriptTaskCreate`. -/
def resourcePowerShellScriptTaskCreate.body (d : PowerShellScriptTaskData) : Value :=
  .obj [("task", .obj [
    ("name", .str d.name),
    ("code", .str d.code),
    ("file", .obj (sourceOptions d)),
    ("taskType", .obj [("code", .str "winrmTask")]),
    ("taskOptions", .obj (resourcePowerShellScriptTaskCreate.taskOptions d)),
    ("resultType", .str d.result_type),
    ("executeTarget", .str d.execute_target),
    ("retryable", .bool d.retryable),
    ("retryCount", .int d.retry_count),
    ("retryDelaySeconds", .int d.retry_delay_seconds),
    ("allowCustomConfig", .bool d.allow_custom_config)])]

/-- The request body built by `resourcePowerShellScriptTaskUpdate`. -/
def resourcePowerShellScriptTaskUpdate.body (d : PowerShellScriptTaskData) : Value :=
  .obj [("task", .obj [
    ("name", .str d.name),
    ("code", .str d.code),
    ("file", .obj (sourceOptions d)),
    ("taskType", .obj [("code", .str "winrmTask")]),
    ("taskOptions", .obj (resourcePowerShellScriptTaskUpdate.taskOptions d)),
    ("resultType", .str d.result_type),
    ("executeTarget", .str d.execute_target),
    ("retryable", .bool d.retryable),
    ("retryCount", .int d.retry_count),
    ("retryDelaySeconds", .int d.retry_delay_seconds),
    ("allowCustomConfig", .bool d.allow_custom_config)])]

/-- The choice of the remote lookup at the head of `resourcePowerShellScriptTaskRead`: by name
when there is no id yet, by id when there is one, none when both are empty. -/
def resourcePowerShellScriptTaskRead.lookup (id name : String) : Option Call :=
  -- lookup by name if we do not have an id yet
  if id == "" && name != "" then some (.FindTaskByName name)
  else if id != "" then some (.GetTask (toInt64 id))
  else none

/-- The handler `resourcePowerShellScriptTaskRead`. -/
def resourcePowerShellScriptTaskRead {σ : Type} (client : Client σ) (remote : σ)
    (d : PowerShellScriptTaskData) : Run PowerShellScriptTaskData σ :=
  let id := d.id
  let name := d.name
  match resourcePowerShellScriptTaskRead.lookup id name with
  | none =>
    ⟨.returned (diag.Errorf "Task cannot be read without name or id"), d, remote, []⟩
  | some call =>
    let (reply, remote1) := client remote call
    match reply.err with
    | some err =>
      -- 404 is ok?
      if is404 reply.resp then ⟨.returned (diag.FromErr err), d, remote1, [call]⟩
      else ⟨.returned (diag.FromErr err), d, remote1, [call]⟩
    | none =>
      match reply.resp with
      | none => ⟨.panicked, d, remote1, [call]⟩
      | some resp =>
        -- store resource data
        let powerShellScriptTask := resp.Body
        let d1 :=
          { d with
            id := intToString powerShellScriptTask.Task.ID
            name := powerShellScriptTask.Task.Name
            code := powerShellScriptTask.Task.Code
            result_type := powerShellScriptTask.Task.Resulttype
            source_type := powerShellScriptTask.Task.File.Sourcetype
            script_content := setStringField d.script_content powerShellScriptTask.Task.File.Content
            script_path := powerShellScriptTask.Task.File.Contentpath
            version_ref := powerShellScriptTask.Task.File.Contentref
            repository_id := powerShellScriptTask.Task.File.Repository.ID
            elevated_shell :=
              if powerShellScriptTask.Task.Taskoptions.WinrmElevated == "on" then true else false
            remote_target_host := powerShellScriptTask.Task.Taskoptions.Host
            remote_target_port := powerShellScriptTask.Task.Taskoptions.Port
            remote_target_username := powerShellScriptTask.Task.Taskoptions.Username
            remote_target_password := powerShellScriptTask.Task.Taskoptions.PasswordHash
            retryable := powerShellScriptTask.Task.Retryable
            retry_count := powerShellScriptTask.Task.Retrycount
            retry_delay_seconds := powerShellScriptTask.Task.Retrydelayseconds
            allow_custom_config := powerShellScriptTask.Task.Allowcustomconfig }
        ⟨.returned [], d1, remote1, [call]⟩

/-- The handler `resourcePowerShellScriptTaskCreate`. -/
def resourcePowerShellScriptTaskCreate {σ : Type} (client : Client σ) (remote : σ)
    (d : PowerShellScriptTaskData) : Run PowerShellScriptTaskData σ :=
  let call := Call.CreateTask (resourcePowerShellScriptTaskCreate.body d)
  let (reply, remote1) := client remote call
  match reply.err with
  | some err => ⟨.returned (diag.FromErr err), d, remote1, [call]⟩
  | none =>
    match reply.resp with
    | none => ⟨.panicked, d, remote1, [call]⟩
    | some resp =>
      match resp.Result with
      | .CreateTaskResult (some task) =>
        -- Successfully created resource, now set id
        let d1 := { d with id := int64ToString task.ID }
        let r := resourcePowerShellScriptTaskRead client remote1 d1
        match r.outcome with
        | .panicked => ⟨.panicked, r.d, r.remote, call :: r.calls⟩
        | .returned _ => ⟨.returned [], r.d, r.remote, call :: r.calls⟩
      | _ => ⟨.panicked, d, remote1, [call]⟩

/-- The handler `resourcePowerShellScriptTaskUpdate`. -/
def resourcePowerShellScriptTaskUpdate {σ : Type} (client : Client σ) (remote : σ)
    (d : PowerShellScriptTaskData) : Run PowerShellScriptTaskData σ :=
  let id := d.id
  let call := Call.UpdateTask (toInt64 id) (resourcePowerShellScriptTaskUpdate.body d)
  let (reply, remote1) := client remote call
  match reply.err with
  | some err => ⟨.returned (diag.FromErr err), d, remote1, [call]⟩
  | none =>
    match reply.resp with
    | none => ⟨.panicked, d, remote1, [call]⟩
    | some resp =>
      match resp.Result with
      | .UpdateTaskResult (some shellScriptTask) =>
        -- Successfully updated resource, now set id
        let d1 := { d with id := int64ToString shellScriptTask.ID }
        let r := resourcePowerShellScriptTaskRead client remote1 d1
        ⟨r.outcome, r.d, r.remote, call :: r.calls⟩
      | _ => ⟨.panicked, d, remote1, [call]⟩

/-- The handler `resourcePowerShellScriptTaskDelete`. -/
def resourcePowerShellScriptTaskDelete {σ : Type} (client : Client σ) (remote : σ)
    (d : PowerShellScriptTaskData) : Run PowerShellScriptTaskData σ :=
  let id := d.id
  let call := Call.DeleteTask (toInt64 id)
  let (reply, remote1) := client remote call
  match reply.err with
  | some err =>
    if is404 reply.resp then ⟨.returned [], d, remote1, [call]⟩
    else ⟨.returned (diag.FromErr err), d, remote1, [call]⟩
  | none => ⟨.returned [], { d with id := "" }, remote1, [call]⟩

/-! ## The diff suppression of `remote_target_password`

The Go standard library functions the schema calls (`crypto/sha256`,
`encoding/hex`, `strings.EqualFold`) are written out on natural numbers: a byte
is a number below 256, a 32-bit word a number below `2 ^ 32`, with the reduction
modulo `2 ^ 32` explicit wherever a sum can overflow. -/

/-- Addition of 32-bit words. -/
def sha256.add32 (a b : Nat) : Nat := (a + b) % 4294967296

/-- Rotation of a 32-bit word to the right by `n` bits, `0 < n < 32`. -/
def sha256.rotr (x n : Nat) : Nat := ((x >>> n) ||| (x <<< (32 - n))) % 4294967296

/-- The choice function: the bits of `y` where `x` has a one, those of `z` elsewhere. -/
def sha256.ch (x y z : Nat) : Nat := (x &&& y) ^^^ ((x ^^^ 4294967295) &&& z)

/-- The majority function of three words, bit by bit. -/
def sha256.maj (x y z : Nat) : Nat := (x &&& y) ^^^ (x &&& z) ^^^ (y &&& z)

/-- The function Σ0 of the compression. -/
def sha256.bsig0 (x : Nat) : Nat := sha256.rotr x 2 ^^^ sha256.rotr x 13 ^^^ sha256.rotr x 22

/-- The function Σ1 of the compression. -/
def sha256.bsig1 (x : Nat) : Nat := sha256.rotr x 6 ^^^ sha256.rotr x 11 ^^^ sha256.rotr x 25

/-- The function σ0 of the message schedule. -/
def sha256.ssig0 (x : Nat) : Nat := sha256.rotr x 7 ^^^ sha256.rotr x 18 ^^^ (x >>> 3)

/-- The function σ1 of the message schedule. -/
def sha256.ssig1 (x : Nat) : Nat := sha256.rotr x 17 ^^^ sha256.rotr x 19 ^^^ (x >>> 10)

/-- The 64 round constants: the first 32 bits of the fractional parts of the cube
roots of the first 64 primes. -/
def sha256.K : List Nat :=
  [1116352408, 1899447441, 3049323471, 3921009573, 961987163, 1508970993, 2453635748,
   2870763221, 3624381080, 310598401, 607225278, 1426881987, 1925078388, 2162078206,
   2614888103, 3248222580, 3835390401, 4022224774, 264347078, 604807628, 770255983, 1249150122,
   1555081692, 1996064986, 2554220882, 2821834349, 2952996808, 3210313671, 3336571891,
   3584528711, 113926993, 338241895, 666307205, 773529912, 1294757372, 1396182291, 1695183700,
   1986661051, 2177026350, 2456956037, 2730485921, 2820302411, 3259730800, 3345764771,
   3516065817, 3600352804, 4094571909, 275423344, 430227734, 506948616, 659060556, 883997877,
   958139571, 1322822218, 1537002063, 1747873779, 1955562222, 2024104815, 2227730452,
   2361852424, 2428436474, 2756734187, 3204031479, 3329325298]

/-- The initial hash value: the first 32 bits of the fractional parts of the square
roots of the first 8 primes. -/
def sha256.init : List Nat :=
  [1779033703, 3144134277, 1013904242, 2773480762, 1359893119, 2600822924, 528734635,
   1541459225]

/-- The message followed by the padding: a byte 0x80, zero bytes up to 56 modulo
64, and the length of the message in bits as 8 bytes, most significant first. -/
def sha256.pad (msg : List Nat) : List Nat :=
  let bits := 8 * msg.length
  msg ++ [128] ++ List.replicate ((119 - msg.length % 64) % 64) 0
    ++ [(bits >>> 56) % 256, (bits >>> 48) % 256, (bits >>> 40) % 256, (bits >>> 32) % 256,
        (bits >>> 24) % 256, (bits >>> 16) % 256, (bits >>> 8) % 256, bits % 256]

/-- Bytes to 32-bit words, most significant byte first. -/
def sha256.words : List Nat → List Nat
  | a :: b :: c :: d :: rest => (((a * 256 + b) * 256 + c) * 256 + d) :: sha256.words rest
  | _ => []

/-- The message schedule: `n` more words after the ones in `w`. -/
def sha256.extend : Nat → List Nat → List Nat
  | 0, w => w
  | n + 1, w =>
    let i := w.length
    sha256.extend n
      (w ++ [sha256.add32
        (sha256.add32 (sha256.ssig1 (w.getD (i - 2) 0)) (w.getD (i - 7) 0))
        (sha256.add32 (sha256.ssig0 (w.getD (i - 15) 0)) (w.getD (i - 16) 0))])

/-- One round on the working variables `[a, b, c, d, e, f, g, h]`. -/
def sha256.round (s : List Nat) (kw : Nat × Nat) : List Nat :=
  match s with
  | [a, b, c, d, e, f, g, h] =>
    let t1 := (h + sha256.bsig1 e + sha256.ch e f g + kw.1 + kw.2) % 4294967296
    let t2 := (sha256.bsig0 a + sha256.maj a b c) % 4294967296
    [sha256.add32 t1 t2, a, b, c, sha256.add32 d t1, e, f, g]
  | _ => s

/-- The compression of one block of 16 words into the hash value `hv`. -/
def sha256.compress (hv : List Nat) (block : List Nat) : List Nat :=
  List.zipWith sha256.add32 hv
    ((List.zip sha256.K (sha256.extend 48 block)).foldl sha256.round hv)

/-- The compression of `n` blocks in turn. -/
def sha256.blocks : Nat → List Nat → List Nat → List Nat
  | 0, _, hv => hv
  | n + 1, ws, hv => sha256.blocks n (ws.drop 16) (sha256.compress hv (ws.take 16))

/-- Go `sha256.Sum256` (equally `h := sha256.New(); h.Write(msg); h.Sum(nil)`):
the 32 bytes of the digest of a list of bytes. -/
def sha256.Sum (msg : List Nat) : List Nat :=
  let ws := sha256.words (sha256.pad msg)
  (sha256.blocks (ws.length / 16) ws sha256.init).flatMap
    (fun w => [(w >>> 24) % 256, (w >>> 16) % 256, (w >>> 8) % 256, w % 256])

/-- The hexadecimal digit of a number below 16. -/
def hex.digit (n : Nat) : Char :=
  "0123456789abcdef".data.getD n '0'

/-- Go `hex.EncodeToString`: two lower-case hexadecimal digits per byte. -/
def hex.EncodeToString (bytes : List Nat) : String :=
  String.mk (bytes.flatMap (fun b => [hex.digit (b / 16 % 16), hex.digit (b % 16)]))

/-- The hex-encoded SHA-256 digest of a string, as the diff suppression
computes it from the candidate value. -/
def hexSha256 (s : String) : String :=
  hex.EncodeToString (sha256.Sum (bytesOf s))

/-- Whether two characters are equal under simple case folding, for the
characters whose folding reaches ASCII: equal characters, an ASCII letter and
its other case, the Kelvin sign with `k` and `K`, the long s with `s` and `S`. -/
def foldEq (c e : Char) : Bool :=
  let n := c.toNat
  let m := e.toNat
  n == m
  || (decide (65 ≤ n) && decide (n ≤ 90) && n + 32 == m)
  || (decide (65 ≤ m) && decide (m ≤ 90) && m + 32 == n)
  || (n == 8490 && (m == 107 || m == 75))
  || (m == 8490 && (n == 107 || n == 75))
  || (n == 383 && (m == 115 || m == 83))
  || (m == 383 && (n == 115 || n == 83))

/-- Character by character comparison under `foldEq`; the lengths must agree. -/
def equalFoldChars : List Char → List Char → Bool
  | [], [] => true
  | c :: cs, e :: es => foldEq c e && equalFoldChars cs es
  | _, _ => false

/-- Go `strings.EqualFold(s, t)`, exact when one of the two strings is ASCII
(as the hex digest is); for two characters outside ASCII only equality is
known to the model. -/
def strings.EqualFold (s t : String) : Bool :=
  equalFoldChars s.data t.data

/-- The `DiffSuppressFunc` of the schema field `remote_target_password`. -/
def resourcePowerShellScriptTask.remote_target_password.DiffSuppressFunc
    (_k old new : String) : Bool :=
  let sha256_hash := hex.EncodeToString (sha256.Sum (bytesOf new))
  strings.EqualFold old sha256_hash

/-- Two strings are equal ignoring letter case: they are the same once the
letters `A` to `Z` are replaced by `a` to `z`. -/
def equalsIgnoringCase (a b : String) : Prop :=
  a.data.map Char.toLower = b.data.map Char.toLower

instance equalsIgnoringCase.decidable (a b : String) : Decidable (equalsIgnoringCase a b) :=
  inferInstanceAs (Decidable (a.data.map Char.toLower = b.data.map Char.toLower))

/-- A lower-case hexadecimal digit: `0` to `9` or `a` to `f`. -/
def isLowerHex (c : Char) : Bool :=
  (decide (48 ≤ c.toNat) && decide (c.toNat ≤ 57))
    || (decide (97 ≤ c.toNat) && decide (c.toNat ≤ 102))

/-! ## Reading request bodies and JSON fields -/

/-- Follow a path of keys through nested maps, as `body["a"]["b"]` does; `none`
when a key is absent or a value on the way is no map. -/
def Value.path : Value → List String → Option Value
  | v, [] => some v
  | v, k :: ks =>
    match v.get k with
    | some w => w.path ks
    | none => none

/-- What `encoding/json` leaves in a Go `string` field, zero before the call,
when the JSON value under the key of the field is `v` (`none`: the key is
absent): a JSON string is stored; `null` and an absent key leave the empty
string, and so does any other value, which is refused. -/
def jsonStringField (v : Option Value) : String :=
  match v with
  | some (.str s) => s
  | _ => ""

/-! ## Concrete remotes and resource data on which the handlers are evaluated -/

/-- A remote that answers every call with the same reply and keeps no state. -/
def constClient (r : Reply) : Client Unit := fun s _ => (r, s)

/-- A remote that answers its calls from a script, whatever the call: the
remote state counts the calls answered so far, and the call number `n` gets the
entry `n` of the script (an error reply once the script is used up). -/
def scriptedClient (script : List Reply) : Client Nat := fun n _ =>
  (script.getD n { resp := none, err := some "no reply scripted" }, n + 1)

/-- A successful reply: status 200, nil error, the given body and result. -/
def okReply (body : PowerShellScript) (result : Result) : Reply :=
  { resp := some { StatusCode := 200, Body := body, Result := result }, err := none }

/-- A failed reply: a response with the given status code and a non-nil error. -/
def errReply (status : Int) (err : String) : Reply :=
  { resp := some { StatusCode := status, Body := PowerShellScript.zero, Result := .other },
    err := some err }

/-- A failed reply without a response (for instance a transport failure). -/
def errNoResp (err : String) : Reply := { resp := none, err := some err }

/-- An api option list as the host holds it. -/
def apiData (id name : String) : ApiOptionListData :=
  { id := id, name := name, description := "d", visibility := "private",
    option_list := "clouds", translation_script := "", request_script := "" }

/-- A checkbox option type as the host holds it. -/
def checkboxData (id name : String) (checked : Bool) : CheckboxOptionTypeData :=
  { id := id, name := name, description := "d", labels := [], field_name := "f",
    export_meta := false, dependent_field := "", visibility_field := "", require_field := "",
    show_on_edit := false, editable := false, display_value_on_details := false,
    field_label := "l", default_checked := checked }

/-- A typeahead option type as the host holds it. -/
def typeAheadData (id name : String) : TypeAheadOptionTypeData :=
  { id := id, name := name, description := "d", labels := [], field_name := "f",
    export_meta := false, dependent_field := "", visibility_field := "", require_field := "",
    show_on_edit := false, editable := false, display_value_on_details := false,
    field_label := "l", placeholder := "", default_value := "", help_block := "",
    option_list_id := 3, allow_multiple_selections := false, required := false }

/-- A PowerShell script task as the host holds it. -/
def taskData (id name target : String) : PowerShellScriptTaskData :=
  { id := id, name := name, code := "c", result_type := "value", elevated_shell := false,
    source_type := "local", script_content := "Write-Output 1", script_path := "",
    repository_id := 0, version_ref := "", execute_target := target,
    remote_target_host := "", remote_target_port := "", remote_target_username := "",
    remote_target_password := "", retryable := false, retry_count := 5,
    retry_delay_seconds := 10, allow_custom_config := false, changed := [] }

/-- A remote option list. -/
def remoteOptionList (id : Int) (name : String) : OptionList :=
  { ID := id, Name := name, Description := "d", Visibility := "private", APIType := "clouds",
    TranslationScript := "", RequestScript := "" }

/-- A remote option type with the given `defaultValue` and `config.multiSelect`. -/
def remoteOptionType (id : Int) (name defaultValue : String) (multiSelect : Value) :
    OptionType :=
  { ID := id, Name := name, Description := "d", Labels := [], FieldName := "f",
    ExportMeta := false, DependsOnCode := "", VisibleOnCode := "", RequireOnCode := "",
    ShowOnEdit := false, Editable := false, DisplayValueOnDetails := false, FieldLabel := "l",
    PlaceHolder := "", DefaultValue := defaultValue, HelpBlock := "", Required := false,
    Config := { MultiSelect := multiSelect }, OptionList := { ID := 3 } }

/-- A response body holding a task with the given id, name and `executeTarget`. -/
def remoteTaskBody (id : Int) (name target : String) : PowerShellScript :=
  { Task := { PowerShellScript.zero.Task with ID := id, Name := name, Executetarget := target } }

/-- A response body holding task `id` whose task options carry the given
`winrm.elevated` and `passwordHash`. -/
def remoteTaskOptionsBody (id : Int) (elevated passwordHash : String) : PowerShellScript :=
  { Task :=
    { PowerShellScript.zero.Task with
      ID := id
      Taskoptions :=
        { PowerShellScript.zero.Task.Taskoptions with
          WinrmElevated := elevated, PasswordHash := passwordHash } } }

theorem Value.isNil_iff (v : Value) : v.isNil = true ↔ v = Value.null := by
  cases v <;> simp [Value.isNil]

theorem Value.eqStr_iff (v : Value) (s : String) : v.eqStr s = true ↔ v = Value.str s := by
  cases v <;> simp [Value.eqStr]

theorem resourceApiOptionListRead_lookup_of_id (id name : String) (h : id ≠ "") :
    resourceApiOptionListRead.lookup id name = some (.GetOptionList (toInt64 id)) := by
  simp [resourceApiOptionListRead.lookup, h]

theorem resourceApiOptionListRead_lookup_of_name (id name : String) (h : id = "") (hn : name ≠ "") :
    resourceApiOptionListRead.lookup id name = some (.FindOptionListByName name) := by
  simp [resourceApiOptionListRead.lookup, h, hn]

theorem resourceApiOptionListRead_lookup_of_neither (id name : String) (h : id = "") (hn : name = "") :
    resourceApiOptionListRead.lookup id name = none := by
  simp [resourceApiOptionListRead.lookup, h, hn]

theorem resourceApiOptionListRead_of_neither {σ : Type} (client : Client σ) (remote : σ)
    (d : ApiOptionListData) (hl : resourceApiOptionListRead.lookup d.id d.name = none) :
    resourceApiOptionListRead client remote d
      = ⟨.returned (diag.Errorf "Option list cannot be read without name or id"), d, remote, []⟩ := by
  unfold resourceApiOptionListRead
  simp only [hl]

theorem resourceApiOptionListRead_of_error {σ : Type} (client : Client σ) (remote : σ)
    (d : ApiOptionListData) (call : Call) (err : String)
    (hl : resourceApiOptionListRead.lookup d.id d.name = some call)
    (he : (client remote call).1.err = some err) :
    resourceApiOptionListRead client remote d
      = ⟨.returned (diag.FromErr err), d, (client remote call).2, [call]⟩ := by
  unfold resourceApiOptionListRead
  simp only [hl, he]
  split <;> rfl

theorem resourceApiOptionListRead_calls {σ : Type} (client : Client σ) (remote : σ)
    (d : ApiOptionListData) (call : Call)
    (hl : resourceApiOptionListRead.lookup d.id d.name = some call) :
    (resourceApiOptionListRead client remote d).calls = [call] := by
  unfold resourceApiOptionListRead
  simp only [hl]
  repeat' split
  all_goals rfl

theorem resourceCheckboxOptionTypeRead_lookup_of_id (id name : String) (h : id ≠ "") :
    resourceCheckboxOptionTypeRead.lookup id name = some (.GetOptionType (toInt64 id)) := by
  simp [resourceCheckboxOptionTypeRead.lookup, h]

theorem resourceCheckboxOptionTypeRead_lookup_of_name (id name : String) (h : id = "") (hn : name ≠ "") :
    resourceCheckboxOptionTypeRead.lookup id name = some (.FindOptionTypeByName name) := by
  simp [resourceCheckboxOptionTypeRead.lookup, h, hn]

theorem resourceCheckboxOptionTypeRead_lookup_of_neither (id name : String) (h : id = "") (hn : name = "") :
    resourceCheckboxOptionTypeRead.lookup id name = none := by
  simp [resourceCheckboxOptionTypeRead.lookup, h, hn]

theorem resourceCheckboxOptionTypeRead_of_neither {σ : Type} (client : Client σ) (remote : σ)
    (d : CheckboxOptionTypeData) (hl : resourceCheckboxOptionTypeRead.lookup d.id d.name = none) :
    resourceCheckboxOptionTypeRead client remote d
      = ⟨.returned (diag.Errorf "OptionType cannot be read without name or id"), d, remote, []⟩ := by
  unfold resourceCheckboxOptionTypeRead
  simp only [hl]

theorem resourceCheckboxOptionTypeRead_of_error {σ : Type} (client : Client σ) (remote : σ)
    (d : CheckboxOptionTypeData) (call : Call) (err : String)
    (hl : resourceCheckboxOptionTypeRead.lookup d.id d.name = some call)
    (he : (client remote call).1.err = some err) :
    resourceCheckboxOptionTypeRead client remote d
      = ⟨.returned (diag.FromErr err), d, (client remote call).2, [call]⟩ := by
  unfold resourceCheckboxOptionTypeRead
  simp only [hl, he]
  split <;> rfl

theorem resourceCheckboxOptionTypeRead_calls {σ : Type} (client : Client σ) (remote : σ)
    (d : CheckboxOptionTypeData) (call : Call)
    (hl : resourceCheckboxOptionTypeRead.lookup d.id d.name = some call) :
    (resourceCheckboxOptionTypeRead client remote d).calls = [call] := by
  unfold resourceCheckboxOptionTypeRead
  simp only [hl]
  repeat' split
  all_goals rfl

theorem resourceTypeAheadOptionTypeRead_lookup_of_id (id name : String) (h : id ≠ "") :
    resourceTypeAheadOptionTypeRead.lookup id name = some (.GetOptionType (toInt64 id)) := by
  simp [resourceTypeAheadOptionTypeRead.lookup, h]

theorem resourceTypeAheadOptionTypeRead_lookup_of_name (id name : String) (h : id = "") (hn : name ≠ "") :
    resourceTypeAheadOptionTypeRead.lookup id name = some (.FindOptionTypeByName name) := by
  simp [resourceTypeAheadOptionTypeRead.lookup, h, hn]

theorem resourceTypeAheadOptionTypeRead_lookup_of_neither (id name : String) (h : id = "") (hn : name = "") :
    resourceTypeAheadOptionTypeRead.lookup id name = none := by
  simp [resourceTypeAheadOptionTypeRead.lookup, h, hn]

theorem resourceTypeAheadOptionTypeRead_of_neither {σ : Type} (client : Client σ) (remote : σ)
    (d : TypeAheadOptionTypeData) (hl : resourceTypeAheadOptionTypeRead.lookup d.id d.name = none) :
    resourceTypeAheadOptionTypeRead client remote d
      = ⟨.returned (diag.Errorf "OptionType cannot be read without name or id"), d, remote, []⟩ := by
  unfold resourceTypeAheadOptionTypeRead
  simp only [hl]

theorem resourceTypeAheadOptionTypeRead_of_error {σ : Type} (client : Client σ) (remote : σ)
    (d : TypeAheadOptionTypeData) (call : Call) (err : String)
    (hl : resourceTypeAheadOptionTypeRead.lookup d.id d.name = some call)
    (he : (client remote call).1.err = some err) :
    resourceTypeAheadOptionTypeRead client remote d
      = ⟨.returned (diag.FromErr err), d, (client remote call).2, [call]⟩ := by
  unfold resourceTypeAheadOptionTypeRead
  simp only [hl, he]
  split <;> rfl

theorem resourceTypeAheadOptionTypeRead_calls {σ : Type} (client : Client σ) (remote : σ)
    (d : TypeAheadOptionTypeData) (call : Call)
    (hl : resourceTypeAheadOptionTypeRead.lookup d.id d.name = some call) :
    (resourceTypeAheadOptionTypeRead client remote d).calls = [call] := by
  unfold resourceTypeAheadOptionTypeRead
  simp only [hl]
  repeat' split
  all_goals rfl

theorem resourcePowerShellScriptTaskRead_lookup_of_id (id name : String) (h : id ≠ "") :
    resourcePowerShellScriptTaskRead.lookup id name = some (.GetTask (toInt64 id)) := by
  simp [resourcePowerShellScriptTaskRead.lookup, h]

theorem resourcePowerShellScriptTaskRead_lookup_of_name (id name : String) (h : id = "") (hn : name ≠ "") :
    resourcePowerShellScriptTaskRead.lookup id name = some (.FindTaskByName name) := by
  simp [resourcePowerShellScriptTaskRead.lookup, h, hn]

theorem resourcePowerShellScriptTaskRead_lookup_of_neither (id name : String) (h : id = "") (hn : name = "") :
    resourcePowerShellScriptTaskRead.lookup id name = none := by
  simp [resourcePowerShellScriptTaskRead.lookup, h, hn]

theorem resourcePowerShellScriptTaskRead_of_neither {σ : Type} (client : Client σ) (remote : σ)
    (d : PowerShellScriptTaskData) (hl : resourcePowerShellScriptTaskRead.lookup d.id d.name = none) :
    resourcePowerShellScriptTaskRead client remote d
      = ⟨.returned (diag.Errorf "Task cannot be read without name or id"), d, remote, []⟩ := by
  unfold resourcePowerShellScriptTaskRead
  simp only [hl]

theorem resourcePowerShellScriptTaskRead_of_error {σ : Type} (client : Client σ) (remote : σ)
    (d : PowerShellScriptTaskData) (call : Call) (err : String)
    (hl : resourcePowerShellScriptTaskRead.lookup d.id d.name = some call)
    (he : (client remote call).1.err = some err) :
    resourcePowerShellScriptTaskRead client remote d
      = ⟨.returned (diag.FromErr err), d, (client remote call).2, [call]⟩ := by
  unfold resourcePowerShellScriptTaskRead
  simp only [hl, he]
  split <;> rfl

theorem resourcePowerShellScriptTaskRead_calls {σ : Type} (client : Client σ) (remote : σ)
    (d : PowerShellScriptTaskData) (call : Call)
    (hl : resourcePowerShellScriptTaskRead.lookup d.id d.name = some call) :
    (resourcePowerShellScriptTaskRead client remote d).calls = [call] := by
  unfold resourcePowerShellScriptTaskRead
  simp only [hl]
  repeat' split
  all_goals rfl

/-! ### Decoding of the on/off strings in `Read` -/

/-- Claim C1, evaluated on the code: the remote checkbox option type 7 has
`defaultValue` "off" and the lookup by id succeeds; `Read` returns no diagnostics
and stores `default_checked = true`, because both branches of the test on
`optionType.DefaultValue == "on"` store `true`. -/
theorem checkbox_read_off_stores_true :
    (resourceCheckboxOptionTypeRead
        (constClient (okReply PowerShellScript.zero
          (.GetOptionTypeResult (some (remoteOptionType 7 "cb" "off" .null)))))
        () (checkboxData "7" "cb" false)).outcome = .returned []
    ∧ (remoteOptionType 7 "cb" "off" .null).DefaultValue ≠ "on"
    ∧ (resourceCheckboxOptionTypeRead
        (constClient (okReply PowerShellScript.zero
          (.GetOptionTypeResult (some (remoteOptionType 7 "cb" "off" .null)))))
        () (checkboxData "7" "cb" false)).d.default_checked = true := by
  refine ⟨rfl, by decide, rfl⟩

/-- Claim C2 fails as stated: the remote typeahead option type 7 has
`config.multiSelect` equal to the string "yes", which is not "on", and `Read`
returns no diagnostics and stores `allow_multiple_selections = true`. -/
theorem typeahead_read_yes_stores_true :
    Value.str "yes" ≠ Value.str "on"
    ∧ (resourceTypeAheadOptionTypeRead
        (constClient (okReply PowerShellScript.zero
          (.GetOptionTypeResult (some (remoteOptionType 7 "ta" "" (.str "yes"))))))
        () (typeAheadData "7" "ta")).outcome = .returned []
    ∧ (resourceTypeAheadOptionTypeRead
        (constClient (okReply PowerShellScript.zero
          (.GetOptionTypeResult (some (remoteOptionType 7 "ta" "" (.str "yes"))))))
        () (typeAheadData "7" "ta")).d.allow_multiple_selections = true := by
  refine ⟨?_, rfl, rfl⟩
  intro h
  injection h with h
  exact absurd h (by decide)

/-- Claim C2 as amended: when the lookup made by the typeahead `Read` succeeds
with a non-nil option type, `Read` returns no diagnostics and stores
`allow_multiple_selections = false` exactly when the remote `config.multiSelect`
is nil or the string "off"; every other remote value, "on" among them, is
stored as `true`. -/
theorem typeahead_read_multiSelect {σ : Type} (client : Client σ) (remote : σ)
    (d : TypeAheadOptionTypeData) (call : Call) (resp : Response) (optionType : OptionType)
    (hl : resourceTypeAheadOptionTypeRead.lookup d.id d.name = some call)
    (he : (client remote call).1.err = none)
    (hr : (client remote call).1.resp = some resp)
    (ht : resp.Result = .GetOptionTypeResult (some optionType)) :
    (resourceTypeAheadOptionTypeRead client remote d).outcome = .returned []
    ∧ ((resourceTypeAheadOptionTypeRead client remote d).d.allow_multiple_selections = false
        ↔ (optionType.Config.MultiSelect = Value.null
            ∨ optionType.Config.MultiSelect = Value.str "off"))
    ∧ (optionType.Config.MultiSelect = Value.str "on" →
        (resourceTypeAheadOptionTypeRead client remote d).d.allow_multiple_selections = true) := by
  unfold resourceTypeAheadOptionTypeRead
  simp only [hl, he, hr, ht]
  refine ⟨trivial, ?_, ?_⟩
  · rw [← Value.isNil_iff, ← Value.eqStr_iff]
    cases h1 : optionType.Config.MultiSelect.isNil <;>
      cases h2 : optionType.Config.MultiSelect.eqStr "off" <;> simp
  · intro hon
    simp [hon, Value.isNil, Value.eqStr]

/-- The amended claim C2 at concrete inputs: a remote `multiSelect` of "off" is
read back as `false`, found through the lookup by id of option type 7. -/
theorem typeahead_read_multiSelect_witness :
    (resourceTypeAheadOptionTypeRead
        (constClient (okReply PowerShellScript.zero
          (.GetOptionTypeResult (some (remoteOptionType 7 "ta" "" (.str "off"))))))
        () (typeAheadData "7" "ta")).outcome = .returned []
    ∧ (resourceTypeAheadOptionTypeRead
        (constClient (okReply PowerShellScript.zero
          (.GetOptionTypeResult (some (remoteOptionType 7 "ta" "" (.str "off"))))))
        () (typeAheadData "7" "ta")).d.allow_multiple_selections = false := by
  have h := typeahead_read_multiSelect
    (constClient (okReply PowerShellScript.zero
      (.GetOptionTypeResult (some (remoteOptionType 7 "ta" "" (.str "off"))))))
    () (typeAheadData "7" "ta") (.GetOptionType 7)
    { StatusCode := 200, Body := PowerShellScript.zero,
      Result := .GetOptionTypeResult (some (remoteOptionType 7 "ta" "" (.str "off"))) }
    (remoteOptionType 7 "ta" "" (.str "off")) rfl rfl rfl rfl
  exact ⟨h.1, h.2.1.mpr (Or.inr rfl)⟩

/-! ### Fields written by a successful `Read` -/

/-- Claim C3, evaluated on the code: the remote task 7 has `executeTarget`
"remote" and the lookup by id succeeds.  `Read` returns no diagnostics and leaves
`execute_target` at the value it had before the call ("local" in one run,
"resource" in the other), since `resourcePowerShellScriptTaskRead` has no
`d.Set("execute_target", ...)`: the two runs read the same remote task and end in
different local states. -/
theorem powershell_read_keeps_execute_target :
    (remoteTaskBody 7 "ps" "remote").Task.Executetarget = "remote"
    ∧ (resourcePowerShellScriptTaskRead
        (constClient (okReply (remoteTaskBody 7 "ps" "remote") .other))
        () (taskData "7" "ps" "local")).outcome = .returned []
    ∧ (resourcePowerShellScriptTaskRead
        (constClient (okReply (remoteTaskBody 7 "ps" "remote") .other))
        () (taskData "7" "ps" "local")).d.execute_target = "local"
    ∧ (resourcePowerShellScriptTaskRead
        (constClient (okReply (remoteTaskBody 7 "ps" "remote") .other))
        () (taskData "7" "ps" "resource")).d.execute_target = "resource" := by
  refine ⟨rfl, rfl, rfl, rfl⟩

/-! ### `Delete` -/

/-- Claim C4, evaluated on the code: the remote answers the delete call with a
404 response and an error "not found".  The api option list `Delete` and the
typeahead `Delete` both return that error as a diagnostic (the checkbox and the
PowerShell `Delete` return none on the same reply). -/
theorem delete_404_returns_error :
    (resourceApiOptionListDelete (constClient (errReply 404 "not found"))
        () (apiData "7" "x")).outcome = .returned (diag.FromErr "not found")
    ∧ (resourceTypeAheadOptionTypeDelete (constClient (errReply 404 "not found"))
        () (typeAheadData "7" "ta")).outcome = .returned (diag.FromErr "not found")
    ∧ Diagnostics.HasError (diag.FromErr "not found") = true
    ∧ (resourceCheckboxOptionTypeDelete (constClient (errReply 404 "not found"))
        () (checkboxData "7" "cb" false)).outcome = .returned []
    ∧ (resourcePowerShellScriptTaskDelete (constClient (errReply 404 "not found"))
        () (taskData "7" "ps" "local")).outcome = .returned [] := by
  refine ⟨rfl, rfl, rfl, rfl, rfl⟩

/-- Claim C5, evaluated on the code: the remote answers the delete call with a
404 response and an error.  The checkbox `Delete` and the PowerShell `Delete`
return no diagnostics, and the local id is still "7": the 404 branch returns
before `d.SetId("")`. -/
theorem delete_404_keeps_id :
    (resourceCheckboxOptionTypeDelete (constClient (errReply 404 "not found"))
        () (checkboxData "7" "cb" false)).outcome = .returned []
    ∧ (resourceCheckboxOptionTypeDelete (constClient (errReply 404 "not found"))
        () (checkboxData "7" "cb" false)).d.id = "7"
    ∧ (resourcePowerShellScriptTaskDelete (constClient (errReply 404 "not found"))
        () (taskData "7" "ps" "local")).outcome = .returned []
    ∧ (resourcePowerShellScriptTaskDelete (constClient (errReply 404 "not found"))
        () (taskData "7" "ps" "local")).d.id = "7" := by
  refine ⟨rfl, rfl, rfl, rfl⟩

/-! ### `Create` and the `Read` it ends with -/

/-- Claim C6, evaluated on the code: the remote accepts the create call
(option list 7, respectively option type 7) and then fails the lookup that the
follow-up `Read` makes: with an error "boom" for the api option list, with a
response that carries no option type for the checkbox.  That `Read` returns an
error diagnostic, and `Create` returns the empty diagnostics list, because it
drops the value `Read` returns. -/
theorem create_drops_read_error :
    (resourceApiOptionListRead
        (scriptedClient [okReply PowerShellScript.zero
            (.CreateOptionListResult (some (remoteOptionList 7 "x"))), errReply 500 "boom"])
        1 { apiData "" "x" with id := int64ToString 7 }).outcome
      = .returned (diag.FromErr "boom")
    ∧ (resourceApiOptionListCreate
        (scriptedClient [okReply PowerShellScript.zero
            (.CreateOptionListResult (some (remoteOptionList 7 "x"))), errReply 500 "boom"])
        0 (apiData "" "x")).outcome = .returned []
    ∧ (resourceCheckboxOptionTypeRead
        (scriptedClient [okReply PowerShellScript.zero
            (.CreateOptionTypeResult (some (remoteOptionType 7 "cb" "on" .null))),
          okReply PowerShellScript.zero (.GetOptionTypeResult none)])
        1 { checkboxData "" "cb" true with id := int64ToString 7 }).outcome
      = .returned (diag.Errorf "read operation: option type not found in response data")
    ∧ (resourceCheckboxOptionTypeCreate
        (scriptedClient [okReply PowerShellScript.zero
            (.CreateOptionTypeResult (some (remoteOptionType 7 "cb" "on" .null))),
          okReply PowerShellScript.zero (.GetOptionTypeResult none)])
        0 (checkboxData "" "cb" true)).outcome = .returned [] := by
  refine ⟨by decide, by decide, by decide, by decide⟩

/-! ### The lookup `Read` chooses -/

/-- Claim C7: for each of the four entity types, `Read` issues exactly one
client call: when `id` is non-empty it is the get-by-id call with that id
(whatever `name` is, and no find-by-name call), and when `id` is empty and
`name` is non-empty it is the find-by-name call with that name (and no
get-by-id call). -/
theorem read_issues_one_lookup {σ : Type} (client : Client σ) (remote : σ) :
    (∀ d : ApiOptionListData,
        (d.id ≠ "" →
          (resourceApiOptionListRead client remote d).calls = [Call.GetOptionList (toInt64 d.id)])
        ∧ (d.id = "" → d.name ≠ "" →
          (resourceApiOptionListRead client remote d).calls = [Call.FindOptionListByName d.name]))
    ∧ (∀ d : CheckboxOptionTypeData,
        (d.id ≠ "" →
          (resourceCheckboxOptionTypeRead client remote d).calls = [Call.GetOptionType (toInt64 d.id)])
        ∧ (d.id = "" → d.name ≠ "" →
          (resourceCheckboxOptionTypeRead client remote d).calls = [Call.FindOptionTypeByName d.name]))
    ∧ (∀ d : TypeAheadOptionTypeData,
        (d.id ≠ "" →
          (resourceTypeAheadOptionTypeRead client remote d).calls = [Call.GetOptionType (toInt64 d.id)])
        ∧ (d.id = "" → d.name ≠ "" →
          (resourceTypeAheadOptionTypeRead client remote d).calls = [Call.FindOptionTypeByName d.name]))
    ∧ (∀ d : PowerShellScriptTaskData,
        (d.id ≠ "" →
          (resourcePowerShellScriptTaskRead client remote d).calls = [Call.GetTask (toInt64 d.id)])
        ∧ (d.id = "" → d.name ≠ "" →
          (resourcePowerShellScriptTaskRead client remote d).calls = [Call.FindTaskByName d.name])) := by
  refine ⟨?_, ?_, ?_, ?_⟩
  · intro d
    exact ⟨fun h => resourceApiOptionListRead_calls client remote d _ (resourceApiOptionListRead_lookup_of_id d.id d.name h),
      fun h hn => resourceApiOptionListRead_calls client remote d _ (resourceApiOptionListRead_lookup_of_name d.id d.name h hn)⟩
  · intro d
    exact ⟨fun h => resourceCheckboxOptionTypeRead_calls client remote d _ (resourceCheckboxOptionTypeRead_lookup_of_id d.id d.name h),
      fun h hn => resourceCheckboxOptionTypeRead_calls client remote d _ (resourceCheckboxOptionTypeRead_lookup_of_name d.id d.name h hn)⟩
  · intro d
    exact ⟨fun h => resourceTypeAheadOptionTypeRead_calls client remote d _ (resourceTypeAheadOptionTypeRead_lookup_of_id d.id d.name h),
      fun h hn => resourceTypeAheadOptionTypeRead_calls client remote d _ (resourceTypeAheadOptionTypeRead_lookup_of_name d.id d.name h hn)⟩
  · intro d
    exact ⟨fun h => resourcePowerShellScriptTaskRead_calls client remote d _ (resourcePowerShellScriptTaskRead_lookup_of_id d.id d.name h),
      fun h hn => resourcePowerShellScriptTaskRead_calls client remote d _ (resourcePowerShellScriptTaskRead_lookup_of_name d.id d.name h hn)⟩

/-- Claim C7 at concrete inputs: with id "7" and a name that is set as well,
each `Read` calls get-by-id 7 only; with an empty id and name "x" it calls
find-by-name "x" only. -/
theorem read_issues_one_lookup_witness :
    (resourceApiOptionListRead
        (constClient (okReply PowerShellScript.zero
          (.GetOptionListResult (some (remoteOptionList 7 "x")))))
        () (apiData "7" "other")).calls = [Call.GetOptionList 7]
    ∧ (resourceApiOptionListRead
        (constClient (okReply PowerShellScript.zero
          (.GetOptionListResult (some (remoteOptionList 7 "x")))))
        () (apiData "" "x")).calls = [Call.FindOptionListByName "x"]
    ∧ (resourceCheckboxOptionTypeRead
        (constClient (okReply PowerShellScript.zero
          (.GetOptionTypeResult (some (remoteOptionType 7 "x" "on" .null)))))
        () (checkboxData "7" "other" false)).calls = [Call.GetOptionType 7]
    ∧ (resourceCheckboxOptionTypeRead
        (constClient (okReply PowerShellScript.zero
          (.GetOptionTypeResult (some (remoteOptionType 7 "x" "on" .null)))))
        () (checkboxData "" "x" false)).calls = [Call.FindOptionTypeByName "x"]
    ∧ (resourceTypeAheadOptionTypeRead
        (constClient (okReply PowerShellScript.zero
          (.GetOptionTypeResult (some (remoteOptionType 7 "x" "" (.str "on"))))))
        () (typeAheadData "7" "other")).calls = [Call.GetOptionType 7]
    ∧ (resourceTypeAheadOptionTypeRead
        (constClient (okReply PowerShellScript.zero
          (.GetOptionTypeResult (some (remoteOptionType 7 "x" "" (.str "on"))))))
        () (typeAheadData "" "x")).calls = [Call.FindOptionTypeByName "x"]
    ∧ (resourcePowerShellScriptTaskRead
        (constClient (okReply (remoteTaskBody 7 "x" "local") .other))
        () (taskData "7" "other" "local")).calls = [Call.GetTask 7]
    ∧ (resourcePowerShellScriptTaskRead
        (constClient (okReply (remoteTaskBody 7 "x" "local") .other))
        () (taskData "" "x" "local")).calls = [Call.FindTaskByName "x"] :=
  ⟨((read_issues_one_lookup _ ()).1 (apiData "7" "other")).1 (by decide),
   ((read_issues_one_lookup _ ()).1 (apiData "" "x")).2 (by decide) (by decide),
   ((read_issues_one_lookup _ ()).2.1 (checkboxData "7" "other" false)).1 (by decide),
   ((read_issues_one_lookup _ ()).2.1 (checkboxData "" "x" false)).2 (by decide) (by decide),
   ((read_issues_one_lookup _ ()).2.2.1 (typeAheadData "7" "other")).1 (by decide),
   ((read_issues_one_lookup _ ()).2.2.1 (typeAheadData "" "x")).2 (by decide) (by decide),
   ((read_issues_one_lookup _ ()).2.2.2 (taskData "7" "other" "local")).1 (by decide),
   ((read_issues_one_lookup _ ()).2.2.2 (taskData "" "x" "local")).2 (by decide) (by decide)⟩

/-- Claim C8: for each of the four entity types, `Read` on a resource whose
`id` and `name` are both empty returns one error diagnostic, makes no client
call, and leaves the resource data (and the remote) as they were. -/
theorem read_without_identity {σ : Type} (client : Client σ) (remote : σ) :
    (∀ d : ApiOptionListData, d.id = "" → d.name = "" →
        resourceApiOptionListRead client remote d
          = ⟨.returned (diag.Errorf "Option list cannot be read without name or id"), d, remote, []⟩)
    ∧ (∀ d : CheckboxOptionTypeData, d.id = "" → d.name = "" →
        resourceCheckboxOptionTypeRead client remote d
          = ⟨.returned (diag.Errorf "OptionType cannot be read without name or id"), d, remote, []⟩)
    ∧ (∀ d : TypeAheadOptionTypeData, d.id = "" → d.name = "" →
        resourceTypeAheadOptionTypeRead client remote d
          = ⟨.returned (diag.Errorf "OptionType cannot be read without name or id"), d, remote, []⟩)
    ∧ (∀ d : PowerShellScriptTaskData, d.id = "" → d.name = "" →
        resourcePowerShellScriptTaskRead client remote d
          = ⟨.returned (diag.Errorf "Task cannot be read without name or id"), d, remote, []⟩)
    ∧ (∀ msg : String, Diagnostics.HasError (diag.Errorf msg) = true) := by
  refine ⟨?_, ?_, ?_, ?_, ?_⟩
  · intro d h hn
    exact resourceApiOptionListRead_of_neither client remote d (resourceApiOptionListRead_lookup_of_neither d.id d.name h hn)
  · intro d h hn
    exact resourceCheckboxOptionTypeRead_of_neither client remote d (resourceCheckboxOptionTypeRead_lookup_of_neither d.id d.name h hn)
  · intro d h hn
    exact resourceTypeAheadOptionTypeRead_of_neither client remote d (resourceTypeAheadOptionTypeRead_lookup_of_neither d.id d.name h hn)
  · intro d h hn
    exact resourcePowerShellScriptTaskRead_of_neither client remote d (resourcePowerShellScriptTaskRead_lookup_of_neither d.id d.name h hn)
  · intro msg
    rfl

/-- Claim C8 at concrete inputs: resources with empty id and name, read
against a remote that would answer any call successfully. -/
theorem read_without_identity_witness :
    resourceApiOptionListRead
        (constClient (okReply PowerShellScript.zero
          (.GetOptionListResult (some (remoteOptionList 7 "x")))))
        () (apiData "" "")
      = ⟨.returned (diag.Errorf "Option list cannot be read without name or id"),
          apiData "" "", (), []⟩
    ∧ resourceCheckboxOptionTypeRead
        (constClient (okReply PowerShellScript.zero
          (.GetOptionTypeResult (some (remoteOptionType 7 "x" "on" .null)))))
        () (checkboxData "" "" true)
      = ⟨.returned (diag.Errorf "OptionType cannot be read without name or id"),
          checkboxData "" "" true, (), []⟩
    ∧ resourceTypeAheadOptionTypeRead
        (constClient (okReply PowerShellScript.zero
          (.GetOptionTypeResult (some (remoteOptionType 7 "x" "" (.str "on"))))))
        () (typeAheadData "" "")
      = ⟨.returned (diag.Errorf "OptionType cannot be read without name or id"),
          typeAheadData "" "", (), []⟩
    ∧ resourcePowerShellScriptTaskRead
        (constClient (okReply (remoteTaskBody 7 "x" "local") .other))
        () (taskData "" "" "local")
      = ⟨.returned (diag.Errorf "Task cannot be read without name or id"),
          taskData "" "" "local", (), []⟩ :=
  ⟨(read_without_identity _ ()).1 (apiData "" "") rfl rfl,
   (read_without_identity _ ()).2.1 (checkboxData "" "" true) rfl rfl,
   (read_without_identity _ ()).2.2.1 (typeAheadData "" "") rfl rfl,
   (read_without_identity _ ()).2.2.2.1 (taskData "" "" "local") rfl rfl⟩

/-! ### A successful reply without an entity -/

/-- Claim C9, evaluated on the code: the get call for task 7 reports success
with a body that holds no task, so that `json.Unmarshal` leaves the zero value.
The PowerShell `Read` returns no diagnostics and overwrites the local state with
zero values: the id becomes "0", the name and the script content become
empty. -/
theorem powershell_read_without_task :
    (resourcePowerShellScriptTaskRead (constClient (okReply PowerShellScript.zero .other))
        () (taskData "7" "ps" "local")).outcome = .returned []
    ∧ (resourcePowerShellScriptTaskRead (constClient (okReply PowerShellScript.zero .other))
        () (taskData "7" "ps" "local")).d.id = "0"
    ∧ (resourcePowerShellScriptTaskRead (constClient (okReply PowerShellScript.zero .other))
        () (taskData "7" "ps" "local")).d.name = ""
    ∧ (resourcePowerShellScriptTaskRead (constClient (okReply PowerShellScript.zero .other))
        () (taskData "7" "ps" "local")).d.script_content = ""
    ∧ (resourcePowerShellScriptTaskRead (constClient (okReply PowerShellScript.zero .other))
        () (taskData "7" "ps" "local")).d ≠ taskData "7" "ps" "local" := by
  refine ⟨by decide, by decide, by decide, by decide, by decide⟩

/-! ### A failed lookup -/

/-- Claim C10: for each of the four entity types, when the lookup call that
`Read` makes comes back with a non-nil error (whatever the response: a 404, any
other status, or no response at all), `Read` returns exactly that error as its
diagnostics, which is an error diagnostic, and the resource data, id included,
are what they were before the call. -/
theorem read_lookup_error {σ : Type} (client : Client σ) (remote : σ) :
    (∀ (d : ApiOptionListData) (call : Call) (err : String),
        resourceApiOptionListRead.lookup d.id d.name = some call →
        (client remote call).1.err = some err →
        resourceApiOptionListRead client remote d
          = ⟨.returned (diag.FromErr err), d, (client remote call).2, [call]⟩)
    ∧ (∀ (d : CheckboxOptionTypeData) (call : Call) (err : String),
        resourceCheckboxOptionTypeRead.lookup d.id d.name = some call →
        (client remote call).1.err = some err →
        resourceCheckboxOptionTypeRead client remote d
          = ⟨.returned (diag.FromErr err), d, (client remote call).2, [call]⟩)
    ∧ (∀ (d : TypeAheadOptionTypeData) (call : Call) (err : String),
        resourceTypeAheadOptionTypeRead.lookup d.id d.name = some call →
        (client remote call).1.err = some err →
        resourceTypeAheadOptionTypeRead client remote d
          = ⟨.returned (diag.FromErr err), d, (client remote call).2, [call]⟩)
    ∧ (∀ (d : PowerShellScriptTaskData) (call : Call) (err : String),
        resourcePowerShellScriptTaskRead.lookup d.id d.name = some call →
        (client remote call).1.err = some err →
        resourcePowerShellScriptTaskRead client remote d
          = ⟨.returned (diag.FromErr err), d, (client remote call).2, [call]⟩)
    ∧ (∀ err : String, Diagnostics.HasError (diag.FromErr err) = true) := by
  refine ⟨?_, ?_, ?_, ?_, ?_⟩
  · intro d call err hl he
    exact resourceApiOptionListRead_of_error client remote d call err hl he
  · intro d call err hl he
    exact resourceCheckboxOptionTypeRead_of_error client remote d call err hl he
  · intro d call err hl he
    exact resourceTypeAheadOptionTypeRead_of_error client remote d call err hl he
  · intro d call err hl he
    exact resourcePowerShellScriptTaskRead_of_error client remote d call err hl he
  · intro err
    rfl

/-- Claim C10 at concrete inputs: a 404 reply for the api option list and the
checkbox, an error without a response for the typeahead, a 500 reply for the
PowerShell task; each resource has id "7". -/
theorem read_lookup_error_witness :
    resourceApiOptionListRead (constClient (errReply 404 "not found")) () (apiData "7" "x")
      = ⟨.returned (diag.FromErr "not found"), apiData "7" "x", (), [Call.GetOptionList 7]⟩
    ∧ resourceCheckboxOptionTypeRead (constClient (errReply 404 "not found")) ()
        (checkboxData "7" "cb" true)
      = ⟨.returned (diag.FromErr "not found"), checkboxData "7" "cb" true, (),
          [Call.GetOptionType 7]⟩
    ∧ resourceTypeAheadOptionTypeRead (constClient (errNoResp "down")) ()
        (typeAheadData "" "ta")
      = ⟨.returned (diag.FromErr "down"), typeAheadData "" "ta", (),
          [Call.FindOptionTypeByName "ta"]⟩
    ∧ resourcePowerShellScriptTaskRead (constClient (errReply 500 "boom")) ()
        (taskData "7" "ps" "local")
      = ⟨.returned (diag.FromErr "boom"), taskData "7" "ps" "local", (), [Call.GetTask 7]⟩ :=
  ⟨(read_lookup_error (constClient (errReply 404 "not found")) ()).1
      (apiData "7" "x") (Call.GetOptionList 7) "not found" rfl rfl,
   (read_lookup_error (constClient (errReply 404 "not found")) ()).2.1
      (checkboxData "7" "cb" true) (Call.GetOptionType 7) "not found" rfl rfl,
   (read_lookup_error (constClient (errNoResp "down")) ()).2.2.1
      (typeAheadData "" "ta") (Call.FindOptionTypeByName "ta") "down" rfl rfl,
   (read_lookup_error (constClient (errReply 500 "boom")) ()).2.2.2.1
      (taskData "7" "ps" "local") (Call.GetTask 7) "boom" rfl rfl⟩

/-! ### A failed `Update`, `Create` or `Delete` call -/

theorem is404_eq_false (resp : Option Response)
    (h : ∀ r : Response, resp = some r → r.StatusCode ≠ 404) : is404 resp = false := by
  cases resp with
  | none => rfl
  | some r => simpa [is404] using h r rfl

/-- Claim C11: for each of the four entity types, when the remote update call
comes back with a non-nil error, `Update` returns exactly that error as its
diagnostics, the update call is the only client call it makes (no lookup, so no
`Read`), and the resource data, id included, are what they were before the
call. -/
theorem update_error_keeps_state {σ : Type} (client : Client σ) (remote : σ) :
    (∀ (d : ApiOptionListData) (err : String),
        (client remote
          (Call.UpdateOptionList (toInt64 d.id) (resourceApiOptionListUpdate.body d))).1.err = some err →
        resourceApiOptionListUpdate client remote d
          = ⟨.returned (diag.FromErr err), d,
              (client remote
                (Call.UpdateOptionList (toInt64 d.id) (resourceApiOptionListUpdate.body d))).2,
              [Call.UpdateOptionList (toInt64 d.id) (resourceApiOptionListUpdate.body d)]⟩)
    ∧ (∀ (d : CheckboxOptionTypeData) (err : String),
        (client remote
          (Call.UpdateOptionType (toInt64 d.id) (resourceCheckboxOptionTypeUpdate.body d))).1.err = some err →
        resourceCheckboxOptionTypeUpdate client remote d
          = ⟨.returned (diag.FromErr err), d,
              (client remote
                (Call.UpdateOptionType (toInt64 d.id) (resourceCheckboxOptionTypeUpdate.body d))).2,
              [Call.UpdateOptionType (toInt64 d.id) (resourceCheckboxOptionTypeUpdate.body d)]⟩)
    ∧ (∀ (d : TypeAheadOptionTypeData) (err : String),
        (client remote
          (Call.UpdateOptionType (toInt64 d.id) (resourceTypeAheadOptionTypeUpdate.body d))).1.err = some err →
        resourceTypeAheadOptionTypeUpdate client remote d
          = ⟨.returned (diag.FromErr err), d,
              (client remote
                (Call.UpdateOptionType (toInt64 d.id) (resourceTypeAheadOptionTypeUpdate.body d))).2,
              [Call.UpdateOptionType (toInt64 d.id) (resourceTypeAheadOptionTypeUpdate.body d)]⟩)
    ∧ (∀ (d : PowerShellScriptTaskData) (err : String),
        (client remote
          (Call.UpdateTask (toInt64 d.id) (resourcePowerShellScriptTaskUpdate.body d))).1.err = some err →
        resourcePowerShellScriptTaskUpdate client remote d
          = ⟨.returned (diag.FromErr err), d,
              (client remote
                (Call.UpdateTask (toInt64 d.id) (resourcePowerShellScriptTaskUpdate.body d))).2,
              [Call.UpdateTask (toInt64 d.id) (resourcePowerShellScriptTaskUpdate.body d)]⟩)
    ∧ (∀ err : String, Diagnostics.HasError (diag.FromErr err) = true) := by
  refine ⟨?_, ?_, ?_, ?_, ?_⟩
  · intro d err he
    unfold resourceApiOptionListUpdate
    simp only [he]
  · intro d err he
    unfold resourceCheckboxOptionTypeUpdate
    simp only [he]
  · intro d err he
    unfold resourceTypeAheadOptionTypeUpdate
    simp only [he]
  · intro d err he
    unfold resourcePowerShellScriptTaskUpdate
    simp only [he]
  · intro err
    rfl

/-- Claim C11 at concrete inputs: each resource has id "7" and the remote
answers the update call with a 500 response and the error "boom" (for the
typeahead: with an error and no response). -/
theorem update_error_keeps_state_witness :
    resourceApiOptionListUpdate (constClient (errReply 500 "boom")) () (apiData "7" "x")
      = ⟨.returned (diag.FromErr "boom"), apiData "7" "x", (),
          [Call.UpdateOptionList 7 (resourceApiOptionListUpdate.body (apiData "7" "x"))]⟩
    ∧ resourceCheckboxOptionTypeUpdate (constClient (errReply 500 "boom")) ()
        (checkboxData "7" "cb" true)
      = ⟨.returned (diag.FromErr "boom"), checkboxData "7" "cb" true, (),
          [Call.UpdateOptionType 7
            (resourceCheckboxOptionTypeUpdate.body (checkboxData "7" "cb" true))]⟩
    ∧ resourceTypeAheadOptionTypeUpdate (constClient (errNoResp "down")) ()
        (typeAheadData "7" "ta")
      = ⟨.returned (diag.FromErr "down"), typeAheadData "7" "ta", (),
          [Call.UpdateOptionType 7
            (resourceTypeAheadOptionTypeUpdate.body (typeAheadData "7" "ta"))]⟩
    ∧ resourcePowerShellScriptTaskUpdate (constClient (errReply 500 "boom")) ()
        (taskData "7" "ps" "local")
      = ⟨.returned (diag.FromErr "boom"), taskData "7" "ps" "local", (),
          [Call.UpdateTask 7
            (resourcePowerShellScriptTaskUpdate.body (taskData "7" "ps" "local"))]⟩ :=
  ⟨(update_error_keeps_state (constClient (errReply 500 "boom")) ()).1
      (apiData "7" "x") "boom" rfl,
   (update_error_keeps_state (constClient (errReply 500 "boom")) ()).2.1
      (checkboxData "7" "cb" true) "boom" rfl,
   (update_error_keeps_state (constClient (errNoResp "down")) ()).2.2.1
      (typeAheadData "7" "ta") "down" rfl,
   (update_error_keeps_state (constClient (errReply 500 "boom")) ()).2.2.2.1
      (taskData "7" "ps" "local") "boom" rfl⟩

/-- Claim C12: for each of the four entity types, when the remote create call
comes back with a non-nil error, `Create` returns exactly that error as its
diagnostics, the create call is the only client call it makes (no lookup, so no
`Read`), and the resource data are untouched: the id keeps its value (the empty
string of an absent resource) and so does every field. -/
theorem create_error_keeps_state {σ : Type} (client : Client σ) (remote : σ) :
    (∀ (d : ApiOptionListData) (err : String),
        (client remote (Call.CreateOptionList (resourceApiOptionListCreate.body d))).1.err = some err →
        resourceApiOptionListCreate client remote d
          = ⟨.returned (diag.FromErr err), d,
              (client remote (Call.CreateOptionList (resourceApiOptionListCreate.body d))).2,
              [Call.CreateOptionList (resourceApiOptionListCreate.body d)]⟩)
    ∧ (∀ (d : CheckboxOptionTypeData) (err : String),
        (client remote (Call.CreateOptionType (resourceCheckboxOptionTypeCreate.body d))).1.err = some err →
        resourceCheckboxOptionTypeCreate client remote d
          = ⟨.returned (diag.FromErr err), d,
              (client remote (Call.CreateOptionType (resourceCheckboxOptionTypeCreate.body d))).2,
              [Call.CreateOptionType (resourceCheckboxOptionTypeCreate.body d)]⟩)
    ∧ (∀ (d : TypeAheadOptionTypeData) (err : String),
        (client remote (Call.CreateOptionType (resourceTypeAheadOptionTypeCreate.body d))).1.err = some err →
        resourceTypeAheadOptionTypeCreate client remote d
          = ⟨.returned (diag.FromErr err), d,
              (client remote (Call.CreateOptionType (resourceTypeAheadOptionTypeCreate.body d))).2,
              [Call.CreateOptionType (resourceTypeAheadOptionTypeCreate.body d)]⟩)
    ∧ (∀ (d : PowerShellScriptTaskData) (err : String),
        (client remote (Call.CreateTask (resourcePowerShellScriptTaskCreate.body d))).1.err = some err →
        resourcePowerShellScriptTaskCreate client remote d
          = ⟨.returned (diag.FromErr err), d,
              (client remote (Call.CreateTask (resourcePowerShellScriptTaskCreate.body d))).2,
              [Call.CreateTask (resourcePowerShellScriptTaskCreate.body d)]⟩)
    ∧ (∀ err : String, Diagnostics.HasError (diag.FromErr err) = true) := by
  refine ⟨?_, ?_, ?_, ?_, ?_⟩
  · intro d err he
    unfold resourceApiOptionListCreate
    simp only [he]
  · intro d err he
    unfold resourceCheckboxOptionTypeCreate
    simp only [he]
  · intro d err he
    unfold resourceTypeAheadOptionTypeCreate
    simp only [he]
  · intro d err he
    unfold resourcePowerShellScriptTaskCreate
    simp only [he]
  · intro err
    rfl

/-- Claim C12 at concrete inputs: each resource is absent (empty id) and the
remote answers the create call with a 500 response and the error "boom" (for
the checkbox: with an error and no response); the id is still empty. -/
theorem create_error_keeps_state_witness :
    (resourceApiOptionListCreate (constClient (errReply 500 "boom")) () (apiData "" "x")
      = ⟨.returned (diag.FromErr "boom"), apiData "" "x", (),
          [Call.CreateOptionList (resourceApiOptionListCreate.body (apiData "" "x"))]⟩
      ∧ (apiData "" "x").id = "")
    ∧ resourceCheckboxOptionTypeCreate (constClient (errNoResp "down")) ()
        (checkboxData "" "cb" true)
      = ⟨.returned (diag.FromErr "down"), checkboxData "" "cb" true, (),
          [Call.CreateOptionType
            (resourceCheckboxOptionTypeCreate.body (checkboxData "" "cb" true))]⟩
    ∧ resourceTypeAheadOptionTypeCreate (constClient (errReply 500 "boom")) ()
        (typeAheadData "" "ta")
      = ⟨.returned (diag.FromErr "boom"), typeAheadData "" "ta", (),
          [Call.CreateOptionType
            (resourceTypeAheadOptionTypeCreate.body (typeAheadData "" "ta"))]⟩
    ∧ resourcePowerShellScriptTaskCreate (constClient (errReply 500 "boom")) ()
        (taskData "" "ps" "local")
      = ⟨.returned (diag.FromErr "boom"), taskData "" "ps" "local", (),
          [Call.CreateTask
            (resourcePowerShellScriptTaskCreate.body (taskData "" "ps" "local"))]⟩ :=
  ⟨⟨(create_error_keeps_state (constClient (errReply 500 "boom")) ()).1
      (apiData "" "x") "boom" rfl, rfl⟩,
   (create_error_keeps_state (constClient (errNoResp "down")) ()).2.1
      (checkboxData "" "cb" true) "down" rfl,
   (create_error_keeps_state (constClient (errReply 500 "boom")) ()).2.2.1
      (typeAheadData "" "ta") "boom" rfl,
   (create_error_keeps_state (constClient (errReply 500 "boom")) ()).2.2.2.1
      (taskData "" "ps" "local") "boom" rfl⟩

/-- Claim C20: for each of the four entity types, when the remote delete call
comes back with a non-nil error that is not a 404 (there is no response, or the
response has a status code other than 404), `Delete` returns exactly that error
as its diagnostics, and the resource data, id included, are what they were
before the call. -/
theorem delete_error_keeps_state {σ : Type} (client : Client σ) (remote : σ) :
    (∀ (d : ApiOptionListData) (err : String),
        (client remote (Call.DeleteOptionList (toInt64 d.id))).1.err = some err →
        (∀ resp : Response,
          (client remote (Call.DeleteOptionList (toInt64 d.id))).1.resp = some resp →
          resp.StatusCode ≠ 404) →
        resourceApiOptionListDelete client remote d
          = ⟨.returned (diag.FromErr err), d,
              (client remote (Call.DeleteOptionList (toInt64 d.id))).2,
              [Call.DeleteOptionList (toInt64 d.id)]⟩)
    ∧ (∀ (d : CheckboxOptionTypeData) (err : String),
        (client remote (Call.DeleteOptionType (toInt64 d.id))).1.err = some err →
        (∀ resp : Response,
          (client remote (Call.DeleteOptionType (toInt64 d.id))).1.resp = some resp →
          resp.StatusCode ≠ 404) →
        resourceCheckboxOptionTypeDelete client remote d
          = ⟨.returned (diag.FromErr err), d,
              (client remote (Call.DeleteOptionType (toInt64 d.id))).2,
              [Call.DeleteOptionType (toInt64 d.id)]⟩)
    ∧ (∀ (d : TypeAheadOptionTypeData) (err : String),
        (client remote (Call.DeleteOptionType (toInt64 d.id))).1.err = some err →
        (∀ resp : Response,
          (client remote (Call.DeleteOptionType (toInt64 d.id))).1.resp = some resp →
          resp.StatusCode ≠ 404) →
        resourceTypeAheadOptionTypeDelete client remote d
          = ⟨.returned (diag.FromErr err), d,
              (client remote (Call.DeleteOptionType (toInt64 d.id))).2,
              [Call.DeleteOptionType (toInt64 d.id)]⟩)
    ∧ (∀ (d : PowerShellScriptTaskData) (err : String),
        (client remote (Call.DeleteTask (toInt64 d.id))).1.err = some err →
        (∀ resp : Response,
          (client remote (Call.DeleteTask (toInt64 d.id))).1.resp = some resp →
          resp.StatusCode ≠ 404) →
        resourcePowerShellScriptTaskDelete client remote d
          = ⟨.returned (diag.FromErr err), d,
              (client remote (Call.DeleteTask (toInt64 d.id))).2,
              [Call.DeleteTask (toInt64 d.id)]⟩)
    ∧ (∀ err : String, Diagnostics.HasError (diag.FromErr err) = true) := by
  refine ⟨?_, ?_, ?_, ?_, ?_⟩
  · intro d err he hs
    unfold resourceApiOptionListDelete
    simp only [he, is404_eq_false _ hs]
    rfl
  · intro d err he hs
    unfold resourceCheckboxOptionTypeDelete
    simp only [he, is404_eq_false _ hs]
    rfl
  · intro d err he hs
    unfold resourceTypeAheadOptionTypeDelete
    simp only [he, is404_eq_false _ hs]
    rfl
  · intro d err he hs
    unfold resourcePowerShellScriptTaskDelete
    simp only [he, is404_eq_false _ hs]
    rfl
  · intro err
    rfl

/-- Claim C20 at concrete inputs: each resource has id "7"; the remote
answers the delete call with a 500 response and the error "boom" (for the
checkbox: with an error and no response at all). -/
theorem delete_error_keeps_state_witness :
    resourceApiOptionListDelete (constClient (errReply 500 "boom")) () (apiData "7" "x")
      = ⟨.returned (diag.FromErr "boom"), apiData "7" "x", (), [Call.DeleteOptionList 7]⟩
    ∧ resourceCheckboxOptionTypeDelete (constClient (errNoResp "down")) ()
        (checkboxData "7" "cb" true)
      = ⟨.returned (diag.FromErr "down"), checkboxData "7" "cb" true, (),
          [Call.DeleteOptionType 7]⟩
    ∧ resourceTypeAheadOptionTypeDelete (constClient (errReply 500 "boom")) ()
        (typeAheadData "7" "ta")
      = ⟨.returned (diag.FromErr "boom"), typeAheadData "7" "ta", (),
          [Call.DeleteOptionType 7]⟩
    ∧ resourcePowerShellScriptTaskDelete (constClient (errReply 500 "boom")) ()
        (taskData "7" "ps" "local")
      = ⟨.returned (diag.FromErr "boom"), taskData "7" "ps" "local", (),
          [Call.DeleteTask 7]⟩ :=
  ⟨(delete_error_keeps_state (constClient (errReply 500 "boom")) ()).1
      (apiData "7" "x") "boom" rfl
      (fun resp h => by
        have h2 := Option.some.inj h
        subst h2
        decide),
   (delete_error_keeps_state (constClient (errNoResp "down")) ()).2.1
      (checkboxData "7" "cb" true) "down" rfl
      (fun resp h => by simp [constClient, errNoResp] at h),
   (delete_error_keeps_state (constClient (errReply 500 "boom")) ()).2.2.1
      (typeAheadData "7" "ta") "boom" rfl
      (fun resp h => by
        have h2 := Option.some.inj h
        subst h2
        decide),
   (delete_error_keeps_state (constClient (errReply 500 "boom")) ()).2.2.2.1
      (taskData "7" "ps" "local") "boom" rfl
      (fun resp h => by
        have h2 := Option.some.inj h
        subst h2
        decide)⟩

/-! ### The id after `Create` -/

theorem resourceApiOptionListRead_id_of_entity {σ : Type} (client : Client σ) (remote : σ)
    (d : ApiOptionListData) (call : Call) (resp : Response) (found : OptionList)
    (hl : resourceApiOptionListRead.lookup d.id d.name = some call)
    (he : (client remote call).1.err = none)
    (hr : (client remote call).1.resp = some resp)
    (ht : resp.Result = .GetOptionListResult (some found)) :
    (resourceApiOptionListRead client remote d).d.id = int64ToString found.ID := by
  unfold resourceApiOptionListRead
  simp only [hl, he, hr, ht]

theorem resourceApiOptionListRead_of_missing {σ : Type} (client : Client σ) (remote : σ)
    (d : ApiOptionListData) (call : Call) (resp : Response)
    (hl : resourceApiOptionListRead.lookup d.id d.name = some call)
    (he : (client remote call).1.err = none)
    (hr : (client remote call).1.resp = some resp)
    (ht : resp.Result = .GetOptionListResult none) :
    resourceApiOptionListRead client remote d
      = ⟨.returned (diag.Errorf "read operation: option list not found in response data"), d,
          (client remote call).2, [call]⟩ := by
  unfold resourceApiOptionListRead
  simp only [hl, he, hr, ht]

theorem resourceCheckboxOptionTypeRead_id_of_entity {σ : Type} (client : Client σ) (remote : σ)
    (d : CheckboxOptionTypeData) (call : Call) (resp : Response) (found : OptionType)
    (hl : resourceCheckboxOptionTypeRead.lookup d.id d.name = some call)
    (he : (client remote call).1.err = none)
    (hr : (client remote call).1.resp = some resp)
    (ht : resp.Result = .GetOptionTypeResult (some found)) :
    (resourceCheckboxOptionTypeRead client remote d).d.id = int64ToString found.ID := by
  unfold resourceCheckboxOptionTypeRead
  simp only [hl, he, hr, ht]

theorem resourceCheckboxOptionTypeRead_of_missing {σ : Type} (client : Client σ) (remote : σ)
    (d : CheckboxOptionTypeData) (call : Call) (resp : Response)
    (hl : resourceCheckboxOptionTypeRead.lookup d.id d.name = some call)
    (he : (client remote call).1.err = none)
    (hr : (client remote call).1.resp = some resp)
    (ht : resp.Result = .GetOptionTypeResult none) :
    resourceCheckboxOptionTypeRead client remote d
      = ⟨.returned (diag.Errorf "read operation: option type not found in response data"), d,
          (client remote call).2, [call]⟩ := by
  unfold resourceCheckboxOptionTypeRead
  simp only [hl, he, hr, ht]

theorem resourceTypeAheadOptionTypeRead_id_of_entity {σ : Type} (client : Client σ) (remote : σ)
    (d : TypeAheadOptionTypeData) (call : Call) (resp : Response) (found : OptionType)
    (hl : resourceTypeAheadOptionTypeRead.lookup d.id d.name = some call)
    (he : (client remote call).1.err = none)
    (hr : (client remote call).1.resp = some resp)
    (ht : resp.Result = .GetOptionTypeResult (some found)) :
    (resourceTypeAheadOptionTypeRead client remote d).d.id = int64ToString found.ID := by
  unfold resourceTypeAheadOptionTypeRead
  simp only [hl, he, hr, ht]

theorem resourceTypeAheadOptionTypeRead_of_missing {σ : Type} (client : Client σ) (remote : σ)
    (d : TypeAheadOptionTypeData) (call : Call) (resp : Response)
    (hl : resourceTypeAheadOptionTypeRead.lookup d.id d.name = some call)
    (he : (client remote call).1.err = none)
    (hr : (client remote call).1.resp = some resp)
    (ht : resp.Result = .GetOptionTypeResult none) :
    resourceTypeAheadOptionTypeRead client remote d
      = ⟨.returned (diag.Errorf "read operation: option type not found in response data"), d,
          (client remote call).2, [call]⟩ := by
  unfold resourceTypeAheadOptionTypeRead
  simp only [hl, he, hr, ht]

theorem resourcePowerShellScriptTaskRead_id_of_response {σ : Type} (client : Client σ)
    (remote : σ) (d : PowerShellScriptTaskData) (call : Call) (resp : Response)
    (hl : resourcePowerShellScriptTaskRead.lookup d.id d.name = some call)
    (he : (client remote call).1.err = none)
    (hr : (client remote call).1.resp = some resp) :
    (resourcePowerShellScriptTaskRead client remote d).d.id = intToString resp.Body.Task.ID := by
  unfold resourcePowerShellScriptTaskRead
  simp only [hl, he, hr]

theorem apiOptionList_body_paths (d : ApiOptionListData) :
    (resourceApiOptionListCreate.body d).path ["optionTypeList", "name"] = some (.str d.name)
    ∧ (resourceApiOptionListCreate.body d).path ["optionTypeList", "description"]
        = some (.str d.description)
    ∧ (resourceApiOptionListCreate.body d).path ["optionTypeList", "type"] = some (.str "api")
    ∧ (resourceApiOptionListCreate.body d).path ["optionTypeList", "apiType"]
        = some (.str d.option_list)
    ∧ (resourceApiOptionListCreate.body d).path ["optionTypeList", "visibility"]
        = some (.str d.visibility)
    ∧ (resourceApiOptionListCreate.body d).path ["optionTypeList", "translationScript"]
        = some (.str d.translation_script)
    ∧ (resourceApiOptionListCreate.body d).path ["optionTypeList", "requestScript"]
        = some (.str d.request_script) := by
  refine ⟨?_, ?_, ?_, ?_, ?_, ?_, ?_⟩ <;> rfl

theorem Value.str_inj_of_some (a b : String)
    (h : some (Value.str a) = some (Value.str b)) : a = b := by
  injection h with h
  injection h

/-- Claim C18: take any api option list `d`.  The request bodies that `Create`
and `Update` build from it both hold, under the remote keys name, description,
apiType, visibility, translationScript and requestScript, one and the same six
strings; and if the option list the remote returns to `Read` carries these six
strings in the fields of those keys, then `Read`, started from any resource data
`d0` whose lookup succeeds, returns no diagnostics and leaves name, description,
option_list, visibility, translation_script and request_script equal to those
of `d`. -/
theorem apiOptionList_round_trip {σ : Type} (client : Client σ) (remote : σ)
    (d : ApiOptionListData) :
    ∃ (name description apiType visibility translationScript requestScript : String),
      (∀ body : Value,
        (body = resourceApiOptionListCreate.body d
          ∨ body = resourceApiOptionListUpdate.body d) →
        body.path ["optionTypeList", "name"] = some (.str name)
        ∧ body.path ["optionTypeList", "description"] = some (.str description)
        ∧ body.path ["optionTypeList", "apiType"] = some (.str apiType)
        ∧ body.path ["optionTypeList", "visibility"] = some (.str visibility)
        ∧ body.path ["optionTypeList", "translationScript"] = some (.str translationScript)
        ∧ body.path ["optionTypeList", "requestScript"] = some (.str requestScript))
      ∧ ∀ (d0 : ApiOptionListData) (call : Call) (resp : Response) (optionList : OptionList),
        optionList.Name = name →
        optionList.Description = description →
        optionList.APIType = apiType →
        optionList.Visibility = visibility →
        optionList.TranslationScript = translationScript →
        optionList.RequestScript = requestScript →
        resourceApiOptionListRead.lookup d0.id d0.name = some call →
        (client remote call).1.err = none →
        (client remote call).1.resp = some resp →
        resp.Result = .GetOptionListResult (some optionList) →
        (resourceApiOptionListRead client remote d0).outcome = .returned []
        ∧ (resourceApiOptionListRead client remote d0).d.name = d.name
        ∧ (resourceApiOptionListRead client remote d0).d.description = d.description
        ∧ (resourceApiOptionListRead client remote d0).d.option_list = d.option_list
        ∧ (resourceApiOptionListRead client remote d0).d.visibility = d.visibility
        ∧ (resourceApiOptionListRead client remote d0).d.translation_script
            = d.translation_script
        ∧ (resourceApiOptionListRead client remote d0).d.request_script
            = d.request_script := by
  refine ⟨d.name, d.description, d.option_list, d.visibility, d.translation_script,
    d.request_script, ?_, ?_⟩
  · intro body hb
    rcases hb with rfl | rfl <;> exact ⟨rfl, rfl, rfl, rfl, rfl, rfl⟩
  · intro d0 call resp optionList h1 h2 h3 h4 h5 h6 hl he hr ht
    unfold resourceApiOptionListRead
    simp only [hl, he, hr, ht, h1, h2, h3, h4, h5, h6]
    exact ⟨trivial, trivial, trivial, trivial, trivial, trivial, trivial⟩

/-- Claim C18 at concrete inputs: the option list "x" (description "d",
option list "clouds", visibility "private", empty scripts) is encoded by
`Update`, the remote returns option list 7 with the same values, and `Read` on a
resource with id "7" and other field values restores all six fields. -/
theorem apiOptionList_round_trip_witness :
    (resourceApiOptionListUpdate.body (apiData "7" "x")).path ["optionTypeList", "name"]
      = some (.str "x")
    ∧ (resourceApiOptionListUpdate.body (apiData "7" "x")).path ["optionTypeList", "apiType"]
      = some (.str "clouds")
    ∧ (resourceApiOptionListRead
        (constClient (okReply PowerShellScript.zero
          (.GetOptionListResult (some (remoteOptionList 7 "x")))))
        () { id := "7", name := "old", description := "", visibility := "",
             option_list := "", translation_script := "t", request_script := "r" }).outcome
      = .returned []
    ∧ (resourceApiOptionListRead
        (constClient (okReply PowerShellScript.zero
          (.GetOptionListResult (some (remoteOptionList 7 "x")))))
        () { id := "7", name := "old", description := "", visibility := "",
             option_list := "", translation_script := "t", request_script := "r" }).d.name = "x"
    ∧ (resourceApiOptionListRead
        (constClient (okReply PowerShellScript.zero
          (.GetOptionListResult (some (remoteOptionList 7 "x")))))
        () { id := "7", name := "old", description := "", visibility := "",
             option_list := "", translation_script := "t", request_script := "r" }).d.description = "d"
    ∧ (resourceApiOptionListRead
        (constClient (okReply PowerShellScript.zero
          (.GetOptionListResult (some (remoteOptionList 7 "x")))))
        () { id := "7", name := "old", description := "", visibility := "",
             option_list := "", translation_script := "t", request_script := "r" }).d.option_list
      = "clouds"
    ∧ (resourceApiOptionListRead
        (constClient (okReply PowerShellScript.zero
          (.GetOptionListResult (some (remoteOptionList 7 "x")))))
        () { id := "7", name := "old", description := "", visibility := "",
             option_list := "", translation_script := "t", request_script := "r" }).d.visibility
      = "private"
    ∧ (resourceApiOptionListRead
        (constClient (okReply PowerShellScript.zero
          (.GetOptionListResult (some (remoteOptionList 7 "x")))))
        () { id := "7", name := "old", description := "", visibility := "",
             option_list := "", translation_script := "t", request_script := "r" }).d.translation_script
      = ""
    ∧ (resourceApiOptionListRead
        (constClient (okReply PowerShellScript.zero
          (.GetOptionListResult (some (remoteOptionList 7 "x")))))
        () { id := "7", name := "old", description := "", visibility := "",
             option_list := "", translation_script := "t", request_script := "r" }).d.request_script
      = "" := by
  obtain ⟨n, de, a, v, t, r, hbody, hread⟩ := apiOptionList_round_trip
    (constClient (okReply PowerShellScript.zero
      (.GetOptionListResult (some (remoteOptionList 7 "x")))))
    () (apiData "7" "x")
  have hu := hbody (resourceApiOptionListUpdate.body (apiData "7" "x")) (Or.inr rfl)
  have h1 : "x" = n := Value.str_inj_of_some _ _ hu.1
  have h2 : "d" = de := Value.str_inj_of_some _ _ hu.2.1
  have h3 : "clouds" = a := Value.str_inj_of_some _ _ hu.2.2.1
  have h4 : "private" = v := Value.str_inj_of_some _ _ hu.2.2.2.1
  have h5 : "" = t := Value.str_inj_of_some _ _ hu.2.2.2.2.1
  have h6 : "" = r := Value.str_inj_of_some _ _ hu.2.2.2.2.2
  have h := hread
    { id := "7", name := "old", description := "", visibility := "",
      option_list := "", translation_script := "t", request_script := "r" }
    (.GetOptionList 7) _ (remoteOptionList 7 "x") h1 h2 h3 h4 h5 h6 rfl rfl rfl rfl
  refine ⟨?_, ?_, h⟩
  · rw [hu.1, ← h1]
  · rw [hu.2.2.1, ← h3]

theorem lookupKey_winrm_elevated (e b1 b2 b3 b4 : Bool) (v1 v2 v3 v4 : Value) :
    lookupKey "winrm.elevated"
      (putIf b4 "password" v4 (putIf b3 "username" v3 (putIf b2 "port" v2
        (putIf b1 "host" v1
          (if e then [("winrm.elevated", Value.str "on")]
           else [("winrm.elevated", Value.null)])))))
      = some (if e then Value.str "on" else Value.null) := by
  cases e <;> cases b1 <;> cases b2 <;> cases b3 <;> cases b4 <;> rfl

theorem Value.path_obj_singleton (kvs : List (String × Value)) (k : String) :
    (Value.obj kvs).path [k] = lookupKey k kvs := by
  simp only [Value.path, Value.get]
  cases lookupKey k kvs <;> rfl

theorem powerShellScriptTask_body_elevated (d : PowerShellScriptTaskData) :
    (resourcePowerShellScriptTaskCreate.body d).path ["task", "taskOptions", "winrm.elevated"]
      = some (if d.elevated_shell then Value.str "on" else Value.null)
    ∧ (resourcePowerShellScriptTaskUpdate.body d).path ["task", "taskOptions", "winrm.elevated"]
      = some (if d.elevated_shell then Value.str "on" else Value.null) := by
  have h1 : (resourcePowerShellScriptTaskCreate.body d).path
      ["task", "taskOptions", "winrm.elevated"]
      = (Value.obj (resourcePowerShellScriptTaskCreate.taskOptions d)).path
          ["winrm.elevated"] := rfl
  have h2 : (resourcePowerShellScriptTaskUpdate.body d).path
      ["task", "taskOptions", "winrm.elevated"]
      = (Value.obj (resourcePowerShellScriptTaskUpdate.taskOptions d)).path
          ["winrm.elevated"] := rfl
  rw [h1, h2, Value.path_obj_singleton, Value.path_obj_singleton]
  exact ⟨lookupKey_winrm_elevated d.elevated_shell (d.remote_target_host != "")
      (d.remote_target_port != "") (d.remote_target_username != "")
      (d.remote_target_password != "") (.str d.remote_target_host) (.str d.remote_target_port)
      (.str d.remote_target_username) (.str d.remote_target_password),
   lookupKey_winrm_elevated d.elevated_shell (d.HasChange "remote_target_host")
      (d.HasChange "remote_target_port") (d.HasChange "remote_target_username")
      (d.HasChange "remote_target_password") (.str d.remote_target_host)
      (.str d.remote_target_port) (.str d.remote_target_username)
      (.str d.remote_target_password)⟩

theorem typeAhead_body_multiSelect (d : TypeAheadOptionTypeData) :
    (resourceTypeAheadOptionTypeCreate.body d).path ["optionType", "config", "multiSelect"]
      = some (Value.str (if d.allow_multiple_selections then "on" else "off"))
    ∧ (resourceTypeAheadOptionTypeUpdate.body d).path ["optionType", "config", "multiSelect"]
      = some (Value.str (if d.allow_multiple_selections then "on" else "off")) :=
  ⟨rfl, rfl⟩

theorem checkbox_body_defaultValue (d : CheckboxOptionTypeData) :
    (resourceCheckboxOptionTypeCreate.body d).path ["optionType", "defaultValue"]
      = some (Value.str (if d.default_checked then "on" else "off"))
    ∧ (resourceCheckboxOptionTypeUpdate.body d).path ["optionType", "defaultValue"]
      = some (Value.str (if d.default_checked then "on" else "off")) :=
  ⟨rfl, rfl⟩

/-! ### The on/off strings in the request bodies -/

/-- Claim C16 fails as stated: for a PowerShell task with
`elevated_shell = false` the body built by `Create` and the body built by
`Update` both hold nil under `taskOptions["winrm.elevated"]`, not the string
"off". -/
theorem powershell_body_elevated_false_is_nil :
    (taskData "" "ps" "local").elevated_shell = false
    ∧ (resourcePowerShellScriptTaskCreate.body (taskData "" "ps" "local")).path
        ["task", "taskOptions", "winrm.elevated"] = some Value.null
    ∧ (resourcePowerShellScriptTaskUpdate.body (taskData "7" "ps" "local")).path
        ["task", "taskOptions", "winrm.elevated"] = some Value.null
    ∧ Value.null ≠ Value.str "off" := by
  refine ⟨rfl, rfl, rfl, ?_⟩
  intro h
  cases h

/-- Claim C16 as amended: in the bodies built by `Create` and by `Update`, the
checkbox `default_checked` is sent under `optionType.defaultValue` and the
typeahead `allow_multiple_selections` under `optionType.config.multiSelect` as
the string "on" when true and the string "off" when false; the PowerShell
`elevated_shell` is sent under `task.taskOptions["winrm.elevated"]` as the string
"on" when true and as nil when false.  None of them is sent as a native
boolean. -/
theorem on_off_encoding (dc : CheckboxOptionTypeData) (dt : TypeAheadOptionTypeData)
    (dp : PowerShellScriptTaskData) :
    (resourceCheckboxOptionTypeCreate.body dc).path ["optionType", "defaultValue"]
      = some (Value.str (if dc.default_checked then "on" else "off"))
    ∧ (resourceCheckboxOptionTypeUpdate.body dc).path ["optionType", "defaultValue"]
      = some (Value.str (if dc.default_checked then "on" else "off"))
    ∧ (resourceTypeAheadOptionTypeCreate.body dt).path ["optionType", "config", "multiSelect"]
      = some (Value.str (if dt.allow_multiple_selections then "on" else "off"))
    ∧ (resourceTypeAheadOptionTypeUpdate.body dt).path ["optionType", "config", "multiSelect"]
      = some (Value.str (if dt.allow_multiple_selections then "on" else "off"))
    ∧ (resourcePowerShellScriptTaskCreate.body dp).path
        ["task", "taskOptions", "winrm.elevated"]
      = some (if dp.elevated_shell then Value.str "on" else Value.null)
    ∧ (resourcePowerShellScriptTaskUpdate.body dp).path
        ["task", "taskOptions", "winrm.elevated"]
      = some (if dp.elevated_shell then Value.str "on" else Value.null) :=
  ⟨(checkbox_body_defaultValue dc).1, (checkbox_body_defaultValue dc).2,
   (typeAhead_body_multiSelect dt).1, (typeAhead_body_multiSelect dt).2,
   (powerShellScriptTask_body_elevated dp).1, (powerShellScriptTask_body_elevated dp).2⟩

/-- Claim C17: round trip of the string-encoded booleans.  Typeahead: the
bodies built by `Create` and by `Update` from `d` both hold one and the same
value under `optionType.config.multiSelect`, and if the option type the remote
returns to `Read` carries that value as `config.multiSelect`, `Read` stores
`allow_multiple_selections = d.allow_multiple_selections`.  PowerShell task: both
bodies hold one and the same value under `task.taskOptions["winrm.elevated"]`,
and if the task the remote returns carries that value as `winrm.elevated`, a nil
being read back as the empty string, `Read` stores
`elevated_shell = d.elevated_shell`.  `Read` may start from any resource data `d0`
whose lookup succeeds. -/
theorem on_off_round_trip {σ : Type} (client : Client σ) (remote : σ) :
    (∀ d : TypeAheadOptionTypeData, ∃ v : Value,
        (resourceTypeAheadOptionTypeCreate.body d).path
            ["optionType", "config", "multiSelect"] = some v
        ∧ (resourceTypeAheadOptionTypeUpdate.body d).path
            ["optionType", "config", "multiSelect"] = some v
        ∧ ∀ (d0 : TypeAheadOptionTypeData) (call : Call) (resp : Response)
            (optionType : OptionType),
            optionType.Config.MultiSelect = v →
            resourceTypeAheadOptionTypeRead.lookup d0.id d0.name = some call →
            (client remote call).1.err = none →
            (client remote call).1.resp = some resp →
            resp.Result = .GetOptionTypeResult (some optionType) →
            (resourceTypeAheadOptionTypeRead client remote d0).outcome = .returned []
            ∧ (resourceTypeAheadOptionTypeRead client remote d0).d.allow_multiple_selections
                = d.allow_multiple_selections)
    ∧ (∀ d : PowerShellScriptTaskData, ∃ v : Value,
        (resourcePowerShellScriptTaskCreate.body d).path
            ["task", "taskOptions", "winrm.elevated"] = some v
        ∧ (resourcePowerShellScriptTaskUpdate.body d).path
            ["task", "taskOptions", "winrm.elevated"] = some v
        ∧ ∀ (d0 : PowerShellScriptTaskData) (call : Call) (resp : Response),
            resp.Body.Task.Taskoptions.WinrmElevated = jsonStringField (some v) →
            resourcePowerShellScriptTaskRead.lookup d0.id d0.name = some call →
            (client remote call).1.err = none →
            (client remote call).1.resp = some resp →
            (resourcePowerShellScriptTaskRead client remote d0).outcome = .returned []
            ∧ (resourcePowerShellScriptTaskRead client remote d0).d.elevated_shell
                = d.elevated_shell) := by
  refine ⟨?_, ?_⟩
  · intro d
    refine ⟨Value.str (if d.allow_multiple_selections then "on" else "off"),
      (typeAhead_body_multiSelect d).1, (typeAhead_body_multiSelect d).2, ?_⟩
    intro d0 call resp optionType hv hl he hr ht
    unfold resourceTypeAheadOptionTypeRead
    simp only [hl, he, hr, ht, hv]
    refine ⟨trivial, ?_⟩
    cases d.allow_multiple_selections <;> decide
  · intro d
    refine ⟨if d.elevated_shell then Value.str "on" else Value.null,
      (powerShellScriptTask_body_elevated d).1, (powerShellScriptTask_body_elevated d).2, ?_⟩
    intro d0 call resp hw hl he hr
    have hv : resp.Body.Task.Taskoptions.WinrmElevated
        = (if d.elevated_shell then "on" else "") := by
      rw [hw]
      cases d.elevated_shell <;> rfl
    unfold resourcePowerShellScriptTaskRead
    simp only [hl, he, hr, hv]
    refine ⟨trivial, ?_⟩
    cases d.elevated_shell <;> decide

/-- Claim C17 at concrete inputs, for both booleans: the typeahead bodies
for `true` and `false` hold "on" and "off", which `Read` takes back to `true` and
`false`; the PowerShell bodies hold "on" and nil, read back by the remote struct
as "on" and "", which `Read` takes back to `true` and `false`. -/
theorem on_off_round_trip_witness :
    (resourceTypeAheadOptionTypeUpdate.body
        { typeAheadData "7" "ta" with allow_multiple_selections := true }).path
        ["optionType", "config", "multiSelect"] = some (.str "on")
    ∧ (resourceTypeAheadOptionTypeRead
        (constClient (okReply PowerShellScript.zero
          (.GetOptionTypeResult (some (remoteOptionType 7 "ta" "" (.str "on"))))))
        () (typeAheadData "7" "ta")).d.allow_multiple_selections = true
    ∧ (resourceTypeAheadOptionTypeUpdate.body (typeAheadData "7" "ta")).path
        ["optionType", "config", "multiSelect"] = some (.str "off")
    ∧ (resourceTypeAheadOptionTypeRead
        (constClient (okReply PowerShellScript.zero
          (.GetOptionTypeResult (some (remoteOptionType 7 "ta" "" (.str "off"))))))
        () { typeAheadData "7" "ta" with allow_multiple_selections := true }
        ).d.allow_multiple_selections = false
    ∧ (resourcePowerShellScriptTaskUpdate.body
        { taskData "7" "ps" "local" with elevated_shell := true }).path
        ["task", "taskOptions", "winrm.elevated"] = some (.str "on")
    ∧ (resourcePowerShellScriptTaskRead
        (constClient (okReply (remoteTaskOptionsBody 7 "on" "") .other))
        () (taskData "7" "ps" "local")).d.elevated_shell = true
    ∧ (resourcePowerShellScriptTaskUpdate.body (taskData "7" "ps" "local")).path
        ["task", "taskOptions", "winrm.elevated"] = some .null
    ∧ (resourcePowerShellScriptTaskRead
        (constClient (okReply (remoteTaskOptionsBody 7 "" "") .other))
        () { taskData "7" "ps" "local" with elevated_shell := true }).d.elevated_shell
      = false := by
  refine ⟨?_, ?_, ?_, ?_, ?_, ?_, ?_, ?_⟩
  · obtain ⟨v, hc, hu, _⟩ := (on_off_round_trip (constClient (errNoResp "down")) ()).1
      { typeAheadData "7" "ta" with allow_multiple_selections := true }
    rw [hu, ← hc]
    rfl
  · obtain ⟨v, hc, _, hread⟩ := (on_off_round_trip
        (constClient (okReply PowerShellScript.zero
          (.GetOptionTypeResult (some (remoteOptionType 7 "ta" "" (.str "on")))))) ()).1
      { typeAheadData "7" "ta" with allow_multiple_selections := true }
    have hv : Value.str "on" = v := Option.some.inj hc
    exact (hread (typeAheadData "7" "ta") (.GetOptionType 7) _
      (remoteOptionType 7 "ta" "" (.str "on")) hv rfl rfl rfl rfl).2
  · obtain ⟨v, hc, hu, _⟩ := (on_off_round_trip (constClient (errNoResp "down")) ()).1
      (typeAheadData "7" "ta")
    rw [hu, ← hc]
    rfl
  · obtain ⟨v, hc, _, hread⟩ := (on_off_round_trip
        (constClient (okReply PowerShellScript.zero
          (.GetOptionTypeResult (some (remoteOptionType 7 "ta" "" (.str "off")))))) ()).1
      (typeAheadData "7" "ta")
    have hv : Value.str "off" = v := Option.some.inj hc
    exact (hread { typeAheadData "7" "ta" with allow_multiple_selections := true }
      (.GetOptionType 7) _ (remoteOptionType 7 "ta" "" (.str "off")) hv rfl rfl rfl rfl).2
  · obtain ⟨v, hc, hu, _⟩ := (on_off_round_trip (constClient (errNoResp "down")) ()).2
      { taskData "7" "ps" "local" with elevated_shell := true }
    rw [hu, ← hc]
    rfl
  · obtain ⟨v, hc, _, hread⟩ := (on_off_round_trip
        (constClient (okReply (remoteTaskOptionsBody 7 "on" "") .other)) ()).2
      { taskData "7" "ps" "local" with elevated_shell := true }
    have hv : Value.str "on" = v := Option.some.inj hc
    exact (hread (taskData "7" "ps" "local") (.GetTask 7) _ (hv ▸ rfl) rfl rfl rfl).2
  · obtain ⟨v, hc, hu, _⟩ := (on_off_round_trip (constClient (errNoResp "down")) ()).2
      (taskData "7" "ps" "local")
    rw [hu, ← hc]
    rfl
  · obtain ⟨v, hc, _, hread⟩ := (on_off_round_trip
        (constClient (okReply (remoteTaskOptionsBody 7 "" "") .other)) ()).2
      (taskData "7" "ps" "local")
    have hv : Value.null = v := Option.some.inj hc
    exact (hread { taskData "7" "ps" "local" with elevated_shell := true } (.GetTask 7) _
      (hv ▸ rfl) rfl rfl rfl).2

/-! ### Which entries the PowerShell request bodies hold -/

theorem sourceOptions_entries (b1 b2 : Bool) (v1 v2 r i y : Value) :
    (Value.obj (putIf b2 "contentPath" v2 (putIf b1 "content" v1 [])
        ++ [("contentRef", r), ("repository", .obj [("id", i)]), ("sourceType", y)])).path
        ["content"] = (if b1 then some v1 else none)
    ∧ (Value.obj (putIf b2 "contentPath" v2 (putIf b1 "content" v1 [])
        ++ [("contentRef", r), ("repository", .obj [("id", i)]), ("sourceType", y)])).path
        ["contentPath"] = (if b2 then some v2 else none)
    ∧ (Value.obj (putIf b2 "contentPath" v2 (putIf b1 "content" v1 [])
        ++ [("contentRef", r), ("repository", .obj [("id", i)]), ("sourceType", y)])).path
        ["contentRef"] = some r
    ∧ (Value.obj (putIf b2 "contentPath" v2 (putIf b1 "content" v1 [])
        ++ [("contentRef", r), ("repository", .obj [("id", i)]), ("sourceType", y)])).path
        ["repository", "id"] = some i
    ∧ (Value.obj (putIf b2 "contentPath" v2 (putIf b1 "content" v1 [])
        ++ [("contentRef", r), ("repository", .obj [("id", i)]), ("sourceType", y)])).path
        ["sourceType"] = some y := by
  cases b1 <;> cases b2 <;> exact ⟨rfl, rfl, rfl, rfl, rfl⟩

theorem taskOptions_entries (e b1 b2 b3 b4 : Bool) (v1 v2 v3 v4 : Value) :
    (Value.obj (putIf b4 "password" v4 (putIf b3 "username" v3 (putIf b2 "port" v2
        (putIf b1 "host" v1
          (if e then [("winrm.elevated", Value.str "on")]
           else [("winrm.elevated", Value.null)])))))).path ["host"]
      = (if b1 then some v1 else none)
    ∧ (Value.obj (putIf b4 "password" v4 (putIf b3 "username" v3 (putIf b2 "port" v2
        (putIf b1 "host" v1
          (if e then [("winrm.elevated", Value.str "on")]
           else [("winrm.elevated", Value.null)])))))).path ["port"]
      = (if b2 then some v2 else none)
    ∧ (Value.obj (putIf b4 "password" v4 (putIf b3 "username" v3 (putIf b2 "port" v2
        (putIf b1 "host" v1
          (if e then [("winrm.elevated", Value.str "on")]
           else [("winrm.elevated", Value.null)])))))).path ["username"]
      = (if b3 then some v3 else none)
    ∧ (Value.obj (putIf b4 "password" v4 (putIf b3 "username" v3 (putIf b2 "port" v2
        (putIf b1 "host" v1
          (if e then [("winrm.elevated", Value.str "on")]
           else [("winrm.elevated", Value.null)])))))).path ["password"]
      = (if b4 then some v4 else none) := by
  cases e <;> cases b1 <;> cases b2 <;> cases b3 <;> cases b4 <;> exact ⟨rfl, rfl, rfl, rfl⟩

theorem powerShellScriptTask_file_entries (d : PowerShellScriptTaskData) :
    (Value.obj (sourceOptions d)).path ["content"]
      = (if d.script_content != "" then some (.str d.script_content) else none)
    ∧ (Value.obj (sourceOptions d)).path ["contentPath"]
      = (if d.script_path != "" then some (.str d.script_path) else none)
    ∧ (Value.obj (sourceOptions d)).path ["contentRef"] = some (.str d.version_ref)
    ∧ (Value.obj (sourceOptions d)).path ["repository", "id"] = some (.int d.repository_id)
    ∧ (Value.obj (sourceOptions d)).path ["sourceType"] = some (.str d.source_type) :=
  sourceOptions_entries (d.script_content != "") (d.script_path != "")
    (.str d.script_content) (.str d.script_path) (.str d.version_ref) (.int d.repository_id)
    (.str d.source_type)

theorem powerShellScriptTaskCreate_taskOptions_entries (d : PowerShellScriptTaskData) :
    (Value.obj (resourcePowerShellScriptTaskCreate.taskOptions d)).path ["host"]
      = (if d.remote_target_host != "" then some (.str d.remote_target_host) else none)
    ∧ (Value.obj (resourcePowerShellScriptTaskCreate.taskOptions d)).path ["port"]
      = (if d.remote_target_port != "" then some (.str d.remote_target_port) else none)
    ∧ (Value.obj (resourcePowerShellScriptTaskCreate.taskOptions d)).path ["username"]
      = (if d.remote_target_username != "" then some (.str d.remote_target_username)
         else none)
    ∧ (Value.obj (resourcePowerShellScriptTaskCreate.taskOptions d)).path ["password"]
      = (if d.remote_target_password != "" then some (.str d.remote_target_password)
         else none) :=
  taskOptions_entries d.elevated_shell (d.remote_target_host != "")
    (d.remote_target_port != "") (d.remote_target_username != "")
    (d.remote_target_password != "") (.str d.remote_target_host) (.str d.remote_target_port)
    (.str d.remote_target_username) (.str d.remote_target_password)

theorem powerShellScriptTaskUpdate_taskOptions_entries (d : PowerShellScriptTaskData) :
    (Value.obj (resourcePowerShellScriptTaskUpdate.taskOptions d)).path ["host"]
      = (if d.HasChange "remote_target_host" then some (.str d.remote_target_host) else none)
    ∧ (Value.obj (resourcePowerShellScriptTaskUpdate.taskOptions d)).path ["port"]
      = (if d.HasChange "remote_target_port" then some (.str d.remote_target_port) else none)
    ∧ (Value.obj (resourcePowerShellScriptTaskUpdate.taskOptions d)).path ["username"]
      = (if d.HasChange "remote_target_username" then some (.str d.remote_target_username)
         else none)
    ∧ (Value.obj (resourcePowerShellScriptTaskUpdate.taskOptions d)).path ["password"]
      = (if d.HasChange "remote_target_password" then some (.str d.remote_target_password)
         else none) :=
  taskOptions_entries d.elevated_shell (d.HasChange "remote_target_host")
    (d.HasChange "remote_target_port") (d.HasChange "remote_target_username")
    (d.HasChange "remote_target_password") (.str d.remote_target_host)
    (.str d.remote_target_port) (.str d.remote_target_username)
    (.str d.remote_target_password)

/-- Claim C19 fails as stated: a task whose `script_path` and four
`remote_target_*` fields are empty gives a `Create` body without
`file.contentPath` and without `taskOptions` host, port, username and password;
a task with a password that the host does not report as changed gives an
`Update` body without `taskOptions.password`. -/
theorem powershell_body_omits_entries :
    (resourcePowerShellScriptTaskCreate.body (taskData "" "ps" "local")).path
        ["task", "file", "contentPath"] = none
    ∧ (resourcePowerShellScriptTaskCreate.body (taskData "" "ps" "local")).path
        ["task", "taskOptions", "host"] = none
    ∧ (resourcePowerShellScriptTaskCreate.body (taskData "" "ps" "local")).path
        ["task", "taskOptions", "port"] = none
    ∧ (resourcePowerShellScriptTaskCreate.body (taskData "" "ps" "local")).path
        ["task", "taskOptions", "username"] = none
    ∧ (resourcePowerShellScriptTaskCreate.body (taskData "" "ps" "local")).path
        ["task", "taskOptions", "password"] = none
    ∧ (resourcePowerShellScriptTaskUpdate.body
        { taskData "7" "ps" "local" with remote_target_password := "S3cr3t!" }).path
        ["task", "taskOptions", "password"] = none :=
  ⟨rfl, rfl, rfl, rfl, rfl, rfl⟩

/-- Claim C19 as amended: for every PowerShell task, the body built by `Create`
and the body built by `Update` hold an entry for name, code, file.contentRef,
file.repository.id, file.sourceType, taskType.code, taskOptions "winrm.elevated",
resultType, executeTarget, retryable, retryCount, retryDelaySeconds and
allowCustomConfig, whatever the local values are; file.content and
file.contentPath are present exactly when `script_content`, respectively
`script_path`, is not the empty string; taskOptions host, port, username and
password are present exactly when the local `remote_target_*` value is not the
empty string (`Create`), respectively when the host reports that field as
changed (`Update`).  An entry that is present holds the local value. -/
theorem powershell_body_entries (d : PowerShellScriptTaskData) :
    (resourcePowerShellScriptTaskCreate.body d).path ["task", "name"]
        = some (.str d.name)
    ∧ (resourcePowerShellScriptTaskCreate.body d).path ["task", "code"]
        = some (.str d.code)
    ∧ (resourcePowerShellScriptTaskCreate.body d).path ["task", "file", "contentRef"]
        = some (.str d.version_ref)
    ∧ (resourcePowerShellScriptTaskCreate.body d).path ["task", "file", "repository", "id"]
        = some (.int d.repository_id)
    ∧ (resourcePowerShellScriptTaskCreate.body d).path ["task", "file", "sourceType"]
        = some (.str d.source_type)
    ∧ (resourcePowerShellScriptTaskCreate.body d).path ["task", "taskType", "code"]
        = some (.str "winrmTask")
    ∧ (resourcePowerShellScriptTaskCreate.body d).path ["task", "taskOptions", "winrm.elevated"]
        = some (if d.elevated_shell then Value.str "on" else Value.null)
    ∧ (resourcePowerShellScriptTaskCreate.body d).path ["task", "resultType"]
        = some (.str d.result_type)
    ∧ (resourcePowerShellScriptTaskCreate.body d).path ["task", "executeTarget"]
        = some (.str d.execute_target)
    ∧ (resourcePowerShellScriptTaskCreate.body d).path ["task", "retryable"]
        = some (.bool d.retryable)
    ∧ (resourcePowerShellScriptTaskCreate.body d).path ["task", "retryCount"]
        = some (.int d.retry_count)
    ∧ (resourcePowerShellScriptTaskCreate.body d).path ["task", "retryDelaySeconds"]
        = some (.int d.retry_delay_seconds)
    ∧ (resourcePowerShellScriptTaskCreate.body d).path ["task", "allowCustomConfig"]
        = some (.bool d.allow_custom_config)
    ∧ (resourcePowerShellScriptTaskCreate.body d).path ["task", "file", "content"]
        = (if d.script_content != "" then some (.str d.script_content) else none)
    ∧ (resourcePowerShellScriptTaskCreate.body d).path ["task", "file", "contentPath"]
        = (if d.script_path != "" then some (.str d.script_path) else none)
    ∧ (resourcePowerShellScriptTaskCreate.body d).path ["task", "taskOptions", "host"]
        = (if d.remote_target_host != "" then some (.str d.remote_target_host) else none)
    ∧ (resourcePowerShellScriptTaskCreate.body d).path ["task", "taskOptions", "port"]
        = (if d.remote_target_port != "" then some (.str d.remote_target_port) else none)
    ∧ (resourcePowerShellScriptTaskCreate.body d).path ["task", "taskOptions", "username"]
        = (if d.remote_target_username != "" then some (.str d.remote_target_username) else none)
    ∧ (resourcePowerShellScriptTaskCreate.body d).path ["task", "taskOptions", "password"]
        = (if d.remote_target_password != "" then some (.str d.remote_target_password) else none)
    ∧ (resourcePowerShellScriptTaskUpdate.body d).path ["task", "name"]
        = some (.str d.name)
    ∧ (resourcePowerShellScriptTaskUpdate.body d).path ["task", "code"]
        = some (.str d.code)
    ∧ (resourcePowerShellScriptTaskUpdate.body d).path ["task", "file", "contentRef"]
        = some (.str d.version_ref)
    ∧ (resourcePowerShellScriptTaskUpdate.body d).path ["task", "file", "repository", "id"]
        = some (.int d.repository_id)
    ∧ (resourcePowerShellScriptTaskUpdate.body d).path ["task", "file", "sourceType"]
        = some (.str d.source_type)
    ∧ (resourcePowerShellScriptTaskUpdate.body d).path ["task", "taskType", "code"]
        = some (.str "winrmTask")
    ∧ (resourcePowerShellScriptTaskUpdate.body d).path ["task", "taskOptions", "winrm.elevated"]
        = some (if d.elevated_shell then Value.str "on" else Value.null)
    ∧ (resourcePowerShellScriptTaskUpdate.body d).path ["task", "resultType"]
        = some (.str d.result_type)
    ∧ (resourcePowerShellScriptTaskUpdate.body d).path ["task", "executeTarget"]
        = some (.str d.execute_target)
    ∧ (resourcePowerShellScriptTaskUpdate.body d).path ["task", "retryable"]
        = some (.bool d.retryable)
    ∧ (resourcePowerShellScriptTaskUpdate.body d).path ["task", "retryCount"]
        = some (.int d.retry_count)
    ∧ (resourcePowerShellScriptTaskUpdate.body d).path ["task", "retryDelaySeconds"]
        = some (.int d.retry_delay_seconds)
    ∧ (resourcePowerShellScriptTaskUpdate.body d).path ["task", "allowCustomConfig"]
        = some (.bool d.allow_custom_config)
    ∧ (resourcePowerShellScriptTaskUpdate.body d).path ["task", "file", "content"]
        = (if d.script_content != "" then some (.str d.script_content) else none)
    ∧ (resourcePowerShellScriptTaskUpdate.body d).path ["task", "file", "contentPath"]
        = (if d.script_path != "" then some (.str d.script_path) else none)
    ∧ (resourcePowerShellScriptTaskUpdate.body d).path ["task", "taskOptions", "host"]
        = (if d.HasChange "remote_target_host" then some (.str d.remote_target_host) else none)
    ∧ (resourcePowerShellScriptTaskUpdate.body d).path ["task", "taskOptions", "port"]
        = (if d.HasChange "remote_target_port" then some (.str d.remote_target_port) else none)
    ∧ (resourcePowerShellScriptTaskUpdate.body d).path ["task", "taskOptions", "username"]
        = (if d.HasChange "remote_target_username" then some (.str d.remote_target_username) else none)
    ∧ (resourcePowerShellScriptTaskUpdate.body d).path ["task", "taskOptions", "password"]
        = (if d.HasChange "remote_target_password" then some (.str d.remote_target_password) else none) :=
  ⟨rfl,
   rfl,
   (powerShellScriptTask_file_entries d).2.2.1,
   (powerShellScriptTask_file_entries d).2.2.2.1,
   (powerShellScriptTask_file_entries d).2.2.2.2,
   rfl,
   (powerShellScriptTask_body_elevated d).1,
   rfl,
   rfl,
   rfl,
   rfl,
   rfl,
   rfl,
   (powerShellScriptTask_file_entries d).1,
   (powerShellScriptTask_file_entries d).2.1,
   (powerShellScriptTaskCreate_taskOptions_entries d).1,
   (powerShellScriptTaskCreate_taskOptions_entries d).2.1,
   (powerShellScriptTaskCreate_taskOptions_entries d).2.2.1,
   (powerShellScriptTaskCreate_taskOptions_entries d).2.2.2,
   rfl,
   rfl,
   (powerShellScriptTask_file_entries d).2.2.1,
   (powerShellScriptTask_file_entries d).2.2.2.1,
   (powerShellScriptTask_file_entries d).2.2.2.2,
   rfl,
   (powerShellScriptTask_body_elevated d).2,
   rfl,
   rfl,
   rfl,
   rfl,
   rfl,
   rfl,
   (powerShellScriptTask_file_entries d).1,
   (powerShellScriptTask_file_entries d).2.1,
   (powerShellScriptTaskUpdate_taskOptions_entries d).1,
   (powerShellScriptTaskUpdate_taskOptions_entries d).2.1,
   (powerShellScriptTaskUpdate_taskOptions_entries d).2.2.1,
   (powerShellScriptTaskUpdate_taskOptions_entries d).2.2.2⟩

/-! ### The stored password hash and its diff suppression -/

theorem Char.toNat_ofNat_of_lt (k : Nat) (h : k < 55296) : (Char.ofNat k).toNat = k := by
  have hv : k.isValidChar := Or.inl h
  simp [Char.ofNat, hv, Char.toNat, Char.ofNatAux]
  rfl

theorem Char.eq_of_toNat_eq (a b : Char) (h : a.toNat = b.toNat) : a = b := by
  rw [← Char.ofNat_toNat a, ← Char.ofNat_toNat b, h]

theorem Char.toLower_toNat (c : Char) :
    c.toLower.toNat = if 65 ≤ c.toNat ∧ c.toNat ≤ 90 then c.toNat + 32 else c.toNat := by
  unfold Char.toLower
  simp only [ge_iff_le]
  split
  · rename_i h
    exact Char.toNat_ofNat_of_lt _ (by omega)
  · rfl

theorem foldEq_lowerHex (c e : Char) (he : isLowerHex e = true) :
    foldEq c e = true ↔ c.toLower = e := by
  constructor
  · intro h
    apply Char.eq_of_toNat_eq
    rw [Char.toLower_toNat]
    simp only [foldEq, isLowerHex, Bool.or_eq_true, Bool.and_eq_true, decide_eq_true_eq,
      beq_iff_eq] at h he
    split <;> omega
  · intro h
    have h2 : c.toLower.toNat = e.toNat := by rw [h]
    rw [Char.toLower_toNat] at h2
    simp only [foldEq, isLowerHex, Bool.or_eq_true, Bool.and_eq_true, decide_eq_true_eq,
      beq_iff_eq] at he ⊢
    split at h2 <;> omega

theorem toLower_of_lowerHex (e : Char) (he : isLowerHex e = true) : e.toLower = e := by
  apply Char.eq_of_toNat_eq
  rw [Char.toLower_toNat]
  simp only [isLowerHex, Bool.or_eq_true, Bool.and_eq_true, decide_eq_true_eq] at he
  split <;> omega

theorem map_toLower_of_lowerHex (es : List Char) (h : ∀ e ∈ es, isLowerHex e = true) :
    es.map Char.toLower = es := by
  induction es with
  | nil => rfl
  | cons e es ih =>
    rw [List.map_cons, toLower_of_lowerHex e (h e (List.mem_cons_self e es)),
      ih (fun x hx => h x (List.mem_cons_of_mem e hx))]

theorem equalFoldChars_lowerHex (cs es : List Char) (h : ∀ e ∈ es, isLowerHex e = true) :
    equalFoldChars cs es = true ↔ cs.map Char.toLower = es := by
  induction cs generalizing es with
  | nil =>
    cases es with
    | nil => simp [equalFoldChars]
    | cons e es => simp [equalFoldChars]
  | cons c cs ih =>
    cases es with
    | nil => simp [equalFoldChars]
    | cons e es =>
      simp only [equalFoldChars, Bool.and_eq_true, List.map_cons, List.cons.injEq]
      rw [foldEq_lowerHex c e (h e (List.mem_cons_self e es)),
        ih es (fun x hx => h x (List.mem_cons_of_mem e hx))]

theorem hex_digit_lowerHex : ∀ n : Nat, n < 16 → isLowerHex (hex.digit n) = true := by
  decide

theorem hex_EncodeToString_lowerHex (bytes : List Nat) :
    ∀ e ∈ (hex.EncodeToString bytes).data, isLowerHex e = true := by
  intro e he
  simp only [hex.EncodeToString, List.mem_flatMap, List.mem_cons, List.mem_singleton,
    List.not_mem_nil, or_false] at he
  obtain ⟨b, _, rfl | rfl⟩ := he
  · exact hex_digit_lowerHex _ (Nat.mod_lt _ (by decide))
  · exact hex_digit_lowerHex _ (Nat.mod_lt _ (by decide))

theorem diffSuppress_iff_map (k old new : String) :
    resourcePowerShellScriptTask.remote_target_password.DiffSuppressFunc k old new = true
      ↔ old.data.map Char.toLower = (hexSha256 new).data :=
  equalFoldChars_lowerHex old.data (hexSha256 new).data
    (hex_EncodeToString_lowerHex (sha256.Sum (bytesOf new)))

theorem hexSha256_map_toLower (s : String) :
    (hexSha256 s).data.map Char.toLower = (hexSha256 s).data :=
  map_toLower_of_lowerHex _ (hex_EncodeToString_lowerHex (sha256.Sum (bytesOf s)))

/-- Claim C15: the `DiffSuppressFunc` of `remote_target_password` returns true
(no diff) for `old` and `new` if and only if `old` equals, ignoring letter case,
the hex-encoded SHA-256 digest of `new`.  Hence, when `old` is the digest of a
plaintext `p`, the candidate `p` is classified as no diff, and every candidate
whose digest differs from `old` is classified as a diff. -/
theorem diffSuppress_password :
    (∀ k old new : String,
        resourcePowerShellScriptTask.remote_target_password.DiffSuppressFunc k old new = true
          ↔ equalsIgnoringCase old (hexSha256 new))
    ∧ (∀ k p : String,
        resourcePowerShellScriptTask.remote_target_password.DiffSuppressFunc k
          (hexSha256 p) p = true)
    ∧ (∀ k p q : String, hexSha256 q ≠ hexSha256 p →
        resourcePowerShellScriptTask.remote_target_password.DiffSuppressFunc k
          (hexSha256 p) q = false) := by
  refine ⟨?_, ?_, ?_⟩
  · intro k old new
    rw [diffSuppress_iff_map, equalsIgnoringCase, hexSha256_map_toLower]
  · intro k p
    rw [diffSuppress_iff_map, hexSha256_map_toLower]
  · intro k p q hne
    cases hds : resourcePowerShellScriptTask.remote_target_password.DiffSuppressFunc k
        (hexSha256 p) q with
    | false => rfl
    | true =>
      rw [diffSuppress_iff_map, hexSha256_map_toLower] at hds
      exact absurd (String.ext hds).symm hne

/-- Claim C15 at the plaintext "S3cr3t!": against the stored digest of
"S3cr3t!", in lower case or in upper case, the candidate "S3cr3t!" gives no
diff, and the candidate "S3cr3t?" gives a diff. -/
theorem diffSuppress_password_witness :
    resourcePowerShellScriptTask.remote_target_password.DiffSuppressFunc
        "remote_target_password"
        "e59d4658f29e3285980e4643bd7359ff056884231bdd195d45821aa4be954a2a" "S3cr3t!" = true
    ∧ resourcePowerShellScriptTask.remote_target_password.DiffSuppressFunc
        "remote_target_password"
        "E59D4658F29E3285980E4643BD7359FF056884231BDD195D45821AA4BE954A2A" "S3cr3t!" = true
    ∧ resourcePowerShellScriptTask.remote_target_password.DiffSuppressFunc
        "remote_target_password" (hexSha256 "S3cr3t!") "S3cr3t?" = false :=
  ⟨(diffSuppress_password.1 "remote_target_password"
      "e59d4658f29e3285980e4643bd7359ff056884231bdd195d45821aa4be954a2a" "S3cr3t!").mpr
      (by decide),
   (diffSuppress_password.1 "remote_target_password"
      "E59D4658F29E3285980E4643BD7359FF056884231BDD195D45821AA4BE954A2A" "S3cr3t!").mpr
      (by decide),
   diffSuppress_password.2.2 "remote_target_password" "S3cr3t!" "S3cr3t?" (by decide)⟩

/-! ### The target fields and the plaintext password on the write path -/

theorem powerShellScriptTask_taskOptions_path (d : PowerShellScriptTaskData) (k : String) :
    (resourcePowerShellScriptTaskCreate.body d).path ["task", "taskOptions", k]
      = (Value.obj (resourcePowerShellScriptTaskCreate.taskOptions d)).path [k]
    ∧ (resourcePowerShellScriptTaskUpdate.body d).path ["task", "taskOptions", k]
      = (Value.obj (resourcePowerShellScriptTaskUpdate.taskOptions d)).path [k] :=
  ⟨rfl, rfl⟩

/-- Claim C21: for every PowerShell task, the body built by `Update` holds
`taskOptions["password"]`, and then the local `remote_target_password` as it
is, if and only if the host reports `remote_target_password` as changed (it has
no such entry otherwise); the body built by `Create` holds it, again with the
local value, if and only if the local `remote_target_password` is not the empty
string.  The same holds for host, port and username with `remote_target_host`,
`remote_target_port` and `remote_target_username`. -/
theorem powershell_write_path_entries (d : PowerShellScriptTaskData) :
    ((resourcePowerShellScriptTaskUpdate.body d).path ["task", "taskOptions", "host"]
          = some (.str d.remote_target_host)
        ↔ d.HasChange "remote_target_host" = true)
    ∧ ((resourcePowerShellScriptTaskUpdate.body d).path ["task", "taskOptions", "host"] = none
        ↔ d.HasChange "remote_target_host" = false)
    ∧ ((resourcePowerShellScriptTaskUpdate.body d).path ["task", "taskOptions", "port"]
          = some (.str d.remote_target_port)
        ↔ d.HasChange "remote_target_port" = true)
    ∧ ((resourcePowerShellScriptTaskUpdate.body d).path ["task", "taskOptions", "port"] = none
        ↔ d.HasChange "remote_target_port" = false)
    ∧ ((resourcePowerShellScriptTaskUpdate.body d).path ["task", "taskOptions", "username"]
          = some (.str d.remote_target_username)
        ↔ d.HasChange "remote_target_username" = true)
    ∧ ((resourcePowerShellScriptTaskUpdate.body d).path ["task", "taskOptions", "username"] = none
        ↔ d.HasChange "remote_target_username" = false)
    ∧ ((resourcePowerShellScriptTaskUpdate.body d).path ["task", "taskOptions", "password"]
          = some (.str d.remote_target_password)
        ↔ d.HasChange "remote_target_password" = true)
    ∧ ((resourcePowerShellScriptTaskUpdate.body d).path ["task", "taskOptions", "password"] = none
        ↔ d.HasChange "remote_target_password" = false)
    ∧ ((resourcePowerShellScriptTaskCreate.body d).path ["task", "taskOptions", "host"]
          = some (.str d.remote_target_host)
        ↔ d.remote_target_host ≠ "")
    ∧ ((resourcePowerShellScriptTaskCreate.body d).path ["task", "taskOptions", "host"] = none
        ↔ d.remote_target_host = "")
    ∧ ((resourcePowerShellScriptTaskCreate.body d).path ["task", "taskOptions", "port"]
          = some (.str d.remote_target_port)
        ↔ d.remote_target_port ≠ "")
    ∧ ((resourcePowerShellScriptTaskCreate.body d).path ["task", "taskOptions", "port"] = none
        ↔ d.remote_target_port = "")
    ∧ ((resourcePowerShellScriptTaskCreate.body d).path ["task", "taskOptions", "username"]
          = some (.str d.remote_target_username)
        ↔ d.remote_target_username ≠ "")
    ∧ ((resourcePowerShellScriptTaskCreate.body d).path ["task", "taskOptions", "username"] = none
        ↔ d.remote_target_username = "")
    ∧ ((resourcePowerShellScriptTaskCreate.body d).path ["task", "taskOptions", "password"]
          = some (.str d.remote_target_password)
        ↔ d.remote_target_password ≠ "")
    ∧ ((resourcePowerShellScriptTaskCreate.body d).path ["task", "taskOptions", "password"] = none
        ↔ d.remote_target_password = "") := by
  refine ⟨?_, ?_, ?_, ?_, ?_, ?_, ?_, ?_, ?_, ?_, ?_, ?_, ?_, ?_, ?_, ?_⟩
  · rw [(powerShellScriptTask_taskOptions_path d "host").2,
      (powerShellScriptTaskUpdate_taskOptions_entries d).1]
    cases d.HasChange "remote_target_host" <;> simp
  · rw [(powerShellScriptTask_taskOptions_path d "host").2,
      (powerShellScriptTaskUpdate_taskOptions_entries d).1]
    cases d.HasChange "remote_target_host" <;> simp
  · rw [(powerShellScriptTask_taskOptions_path d "port").2,
      (powerShellScriptTaskUpdate_taskOptions_entries d).2.1]
    cases d.HasChange "remote_target_port" <;> simp
  · rw [(powerShellScriptTask_taskOptions_path d "port").2,
      (powerShellScriptTaskUpdate_taskOptions_entries d).2.1]
    cases d.HasChange "remote_target_port" <;> simp
  · rw [(powerShellScriptTask_taskOptions_path d "username").2,
      (powerShellScriptTaskUpdate_taskOptions_entries d).2.2.1]
    cases d.HasChange "remote_target_username" <;> simp
  · rw [(powerShellScriptTask_taskOptions_path d "username").2,
      (powerShellScriptTaskUpdate_taskOptions_entries d).2.2.1]
    cases d.HasChange "remote_target_username" <;> simp
  · rw [(powerShellScriptTask_taskOptions_path d "password").2,
      (powerShellScriptTaskUpdate_taskOptions_entries d).2.2.2]
    cases d.HasChange "remote_target_password" <;> simp
  · rw [(powerShellScriptTask_taskOptions_path d "password").2,
      (powerShellScriptTaskUpdate_taskOptions_entries d).2.2.2]
    cases d.HasChange "remote_target_password" <;> simp
  · rw [(powerShellScriptTask_taskOptions_path d "host").1,
      (powerShellScriptTaskCreate_taskOptions_entries d).1]
    by_cases h : d.remote_target_host = "" <;> simp [h]
  · rw [(powerShellScriptTask_taskOptions_path d "host").1,
      (powerShellScriptTaskCreate_taskOptions_entries d).1]
    by_cases h : d.remote_target_host = "" <;> simp [h]
  · rw [(powerShellScriptTask_taskOptions_path d "port").1,
      (powerShellScriptTaskCreate_taskOptions_entries d).2.1]
    by_cases h : d.remote_target_port = "" <;> simp [h]
  · rw [(powerShellScriptTask_taskOptions_path d "port").1,
      (powerShellScriptTaskCreate_taskOptions_entries d).2.1]
    by_cases h : d.remote_target_port = "" <;> simp [h]
  · rw [(powerShellScriptTask_taskOptions_path d "username").1,
      (powerShellScriptTaskCreate_taskOptions_entries d).2.2.1]
    by_cases h : d.remote_target_username = "" <;> simp [h]
  · rw [(powerShellScriptTask_taskOptions_path d "username").1,
      (powerShellScriptTaskCreate_taskOptions_entries d).2.2.1]
    by_cases h : d.remote_target_username = "" <;> simp [h]
  · rw [(powerShellScriptTask_taskOptions_path d "password").1,
      (powerShellScriptTaskCreate_taskOptions_entries d).2.2.2]
    by_cases h : d.remote_target_password = "" <;> simp [h]
  · rw [(powerShellScriptTask_taskOptions_path d "password").1,
      (powerShellScriptTaskCreate_taskOptions_entries d).2.2.2]
    by_cases h : d.remote_target_password = "" <;> simp [h]

/-- Claim C21 at concrete inputs: with the password "S3cr3t!" reported as
changed, the `Update` body holds it; with the same password not reported as
changed, the `Update` body has no password entry; the `Create` body holds the
password "S3cr3t!", and has no host entry for an empty `remote_target_host`. -/
theorem powershell_write_path_entries_witness :
    (resourcePowerShellScriptTaskUpdate.body
        { taskData "7" "ps" "remote" with
          remote_target_password := "S3cr3t!", changed := ["remote_target_password"] }).path
        ["task", "taskOptions", "password"] = some (.str "S3cr3t!")
    ∧ (resourcePowerShellScriptTaskUpdate.body
        { taskData "7" "ps" "remote" with remote_target_password := "S3cr3t!" }).path
        ["task", "taskOptions", "password"] = none
    ∧ (resourcePowerShellScriptTaskCreate.body
        { taskData "" "ps" "remote" with remote_target_password := "S3cr3t!" }).path
        ["task", "taskOptions", "password"] = some (.str "S3cr3t!")
    ∧ (resourcePowerShellScriptTaskCreate.body (taskData "" "ps" "local")).path
        ["task", "taskOptions", "host"] = none :=
  ⟨(powershell_write_path_entries
      { taskData "7" "ps" "remote" with
          remote_target_password := "S3cr3t!", changed := ["remote_target_password"] }).2.2.2.2.2.2.1.mpr
      (by decide),
   (powershell_write_path_entries
      { taskData "7" "ps" "remote" with remote_target_password := "S3cr3t!" }).2.2.2.2.2.2.2.1.mpr
      (by decide),
   (powershell_write_path_entries
      { taskData "" "ps" "remote" with remote_target_password := "S3cr3t!" }).2.2.2.2.2.2.2.2.2.2.2.2.2.2.1.mpr
      (by decide),
   (powershell_write_path_entries (taskData "" "ps" "local")).2.2.2.2.2.2.2.2.2.1.mpr (by decide)⟩

/-! ### `Create` and `Update` send the same body -/

theorem foldl_append_singleton (l acc : List String) :
    l.foldl (fun acc s => acc ++ [s]) acc = acc ++ l := by
  induction l generalizing acc with
  | nil => simp
  | cons x xs ih => simp [List.foldl_cons, ih]

theorem labelsPayload_eq (labels : List String) : labelsPayload labels = labels := by
  unfold labelsPayload
  cases labels with
  | nil => rfl
  | cons x xs => simp [foldl_append_singleton]

theorem resourceApiOptionListCreate_first_call {σ : Type} (client : Client σ) (remote : σ)
    (d : ApiOptionListData) :
    (resourceApiOptionListCreate client remote d).calls.head?
      = some (Call.CreateOptionList (resourceApiOptionListCreate.body d)) := by
  unfold resourceApiOptionListCreate
  simp only []
  repeat' split
  all_goals rfl

theorem resourceApiOptionListUpdate_first_call {σ : Type} (client : Client σ) (remote : σ)
    (d : ApiOptionListData) :
    (resourceApiOptionListUpdate client remote d).calls.head?
      = some (Call.UpdateOptionList (toInt64 d.id) (resourceApiOptionListUpdate.body d)) := by
  unfold resourceApiOptionListUpdate
  simp only []
  repeat' split
  all_goals rfl

theorem resourceCheckboxOptionTypeCreate_first_call {σ : Type} (client : Client σ) (remote : σ)
    (d : CheckboxOptionTypeData) :
    (resourceCheckboxOptionTypeCreate client remote d).calls.head?
      = some (Call.CreateOptionType (resourceCheckboxOptionTypeCreate.body d)) := by
  unfold resourceCheckboxOptionTypeCreate
  simp only []
  repeat' split
  all_goals rfl

theorem resourceCheckboxOptionTypeUpdate_first_call {σ : Type} (client : Client σ) (remote : σ)
    (d : CheckboxOptionTypeData) :
    (resourceCheckboxOptionTypeUpdate client remote d).calls.head?
      = some (Call.UpdateOptionType (toInt64 d.id) (resourceCheckboxOptionTypeUpdate.body d)) := by
  unfold resourceCheckboxOptionTypeUpdate
  simp only []
  repeat' split
  all_goals rfl

theorem resourceTypeAheadOptionTypeCreate_first_call {σ : Type} (client : Client σ) (remote : σ)
    (d : TypeAheadOptionTypeData) :
    (resourceTypeAheadOptionTypeCreate client remote d).calls.head?
      = some (Call.CreateOptionType (resourceTypeAheadOptionTypeCreate.body d)) := by
  unfold resourceTypeAheadOptionTypeCreate
  simp only []
  repeat' split
  all_goals rfl

theorem resourceTypeAheadOptionTypeUpdate_first_call {σ : Type} (client : Client σ) (remote : σ)
    (d : TypeAheadOptionTypeData) :
    (resourceTypeAheadOptionTypeUpdate client remote d).calls.head?
      = some (Call.UpdateOptionType (toInt64 d.id) (resourceTypeAheadOptionTypeUpdate.body d)) := by
  unfold resourceTypeAheadOptionTypeUpdate
  simp only []
  repeat' split
  all_goals rfl

/-- Claim C22: for the api option list, the checkbox option type and the
typeahead option type, the body `Update` builds from a local state is the body
`Create` builds from it, and that body is what each handler sends in its first
client call (`Update` together with the id).  The body holds the constant type
tag ("api", "checkbox", "typeahead"), and for the two option types it holds
under `labels` the list of exactly the elements of the local set, which is the
empty list when no labels are set. -/
theorem create_update_same_body {σ : Type} (client : Client σ) (remote : σ)
    (da : ApiOptionListData) (dc : CheckboxOptionTypeData) (dt : TypeAheadOptionTypeData) :
    (resourceApiOptionListUpdate.body da = resourceApiOptionListCreate.body da
      ∧ (resourceApiOptionListCreate client remote da).calls.head?
          = some (Call.CreateOptionList (resourceApiOptionListCreate.body da))
      ∧ (resourceApiOptionListUpdate client remote da).calls.head?
          = some (Call.UpdateOptionList (toInt64 da.id) (resourceApiOptionListCreate.body da))
      ∧ (resourceApiOptionListCreate.body da).path ["optionTypeList", "type"]
          = some (.str "api"))
    ∧ (resourceCheckboxOptionTypeUpdate.body dc = resourceCheckboxOptionTypeCreate.body dc
      ∧ (resourceCheckboxOptionTypeCreate client remote dc).calls.head?
          = some (Call.CreateOptionType (resourceCheckboxOptionTypeCreate.body dc))
      ∧ (resourceCheckboxOptionTypeUpdate client remote dc).calls.head?
          = some (Call.UpdateOptionType (toInt64 dc.id)
              (resourceCheckboxOptionTypeCreate.body dc))
      ∧ (resourceCheckboxOptionTypeCreate.body dc).path ["optionType", "type"]
          = some (.str "checkbox")
      ∧ (resourceCheckboxOptionTypeCreate.body dc).path ["optionType", "labels"]
          = some (.strs dc.labels))
    ∧ (resourceTypeAheadOptionTypeUpdate.body dt = resourceTypeAheadOptionTypeCreate.body dt
      ∧ (resourceTypeAheadOptionTypeCreate client remote dt).calls.head?
          = some (Call.CreateOptionType (resourceTypeAheadOptionTypeCreate.body dt))
      ∧ (resourceTypeAheadOptionTypeUpdate client remote dt).calls.head?
          = some (Call.UpdateOptionType (toInt64 dt.id)
              (resourceTypeAheadOptionTypeCreate.body dt))
      ∧ (resourceTypeAheadOptionTypeCreate.body dt).path ["optionType", "type"]
          = some (.str "typeahead")
      ∧ (resourceTypeAheadOptionTypeCreate.body dt).path ["optionType", "labels"]
          = some (.strs dt.labels)) := by
  have hc : (resourceCheckboxOptionTypeCreate.body dc).path ["optionType", "labels"]
      = some (.strs (labelsPayload dc.labels)) := rfl
  have ht : (resourceTypeAheadOptionTypeCreate.body dt).path ["optionType", "labels"]
      = some (.strs (labelsPayload dt.labels)) := rfl
  rw [labelsPayload_eq] at hc ht
  exact ⟨⟨rfl, resourceApiOptionListCreate_first_call client remote da,
      resourceApiOptionListUpdate_first_call client remote da, rfl⟩,
    ⟨rfl, resourceCheckboxOptionTypeCreate_first_call client remote dc,
      resourceCheckboxOptionTypeUpdate_first_call client remote dc, rfl, hc⟩,
    ⟨rfl, resourceTypeAheadOptionTypeCreate_first_call client remote dt,
      resourceTypeAheadOptionTypeUpdate_first_call client remote dt, rfl, ht⟩⟩

/-- Claim C22 at concrete inputs: a checkbox option type without labels sends
the empty list under `labels` in both bodies, a typeahead option type with the
labels "a" and "b" sends exactly these two, and both option types send their
type tag. -/
theorem create_update_same_body_witness :
    (resourceCheckboxOptionTypeUpdate.body (checkboxData "7" "cb" true)).path
        ["optionType", "labels"] = some (.strs [])
    ∧ (resourceCheckboxOptionTypeCreate.body (checkboxData "7" "cb" true)).path
        ["optionType", "labels"] = some (.strs [])
    ∧ (resourceTypeAheadOptionTypeUpdate.body
        { typeAheadData "7" "ta" with labels := ["a", "b"] }).path
        ["optionType", "labels"] = some (.strs ["a", "b"])
    ∧ (resourceTypeAheadOptionTypeUpdate.body
        { typeAheadData "7" "ta" with labels := ["a", "b"] }).path
        ["optionType", "type"] = some (.str "typeahead")
    ∧ (resourceApiOptionListUpdate (constClient (errReply 500 "boom")) ()
        (apiData "7" "x")).calls.head?
      = some (Call.UpdateOptionList 7 (resourceApiOptionListCreate.body (apiData "7" "x"))) :=
  have h := create_update_same_body (constClient (errReply 500 "boom")) ()
    (apiData "7" "x") (checkboxData "7" "cb" true)
    { typeAheadData "7" "ta" with labels := ["a", "b"] }
  ⟨h.2.1.1 ▸ h.2.1.2.2.2.2, h.2.1.2.2.2.2, h.2.2.1 ▸ h.2.2.2.2.2.2, h.2.2.1 ▸ h.2.2.2.2.2.1,
   h.1.2.2.1⟩

/-! ### The order of a set of strings -/

set_option maxRecDepth 100000 in
theorem schemaSetOf_example :
    schemaSetOf ["prod", "dev", "prod", "qa"] = ["qa", "prod", "dev"]
    ∧ schemaSetOf [] = [] := by
  decide

end Morpheus
